import Mathlib

/-!
Verification of the CVision resume-intelligence pipeline (ai-server).

Shallow embedding of the deterministic core of the Python services:
  - app/modules/scoring/service.py        (GlobalResumeScoring)
  - app/modules/scoring/schemas.py        (ScoringWeights)
  - app/modules/experience_analysis/service.py (ExperienceAnalysisService)
  - app/modules/parsing/service.py        (ResumeParsingService)
  - app/modules/skill_analysis/service.py (SkillIntelligenceEngine)
  - app/modules/report_generation/service.py (EvaluationReportGenerator)

Python floats are modelled by ℚ (the scoring arithmetic stays in small
decimal fractions where binary-float rounding does not change any of the
comparisons involved), Python ints by ℕ/ℤ, strings by Lean String, and
clock reads (time.time, datetime.now().year) by explicit parameters.
-/

/-! ## Common helpers: Python string/number semantics -/

/-- Python `\s` (ASCII range, which is all the pipeline ever feeds in):
space, tab, newline, carriage return, vertical tab, form feed. -/
def pyIsSpace (c : Char) : Bool :=
  c = ' ' || c = '\t' || c = '\n' || c = '\r' || c = '\x0b' || c = '\x0c'

/-- Python `str.strip()` on a character list. -/
def pyStripList (l : List Char) : List Char :=
  ((l.dropWhile pyIsSpace).reverse.dropWhile pyIsSpace).reverse

/-- Python `str.strip()` on a string. -/
def pyStrip (s : String) : String :=
  ⟨pyStripList s.data⟩

/-- Python `str.lower()` (ASCII case folding; all table entries are ASCII). -/
def pyLower (s : String) : String :=
  ⟨s.data.map Char.toLower⟩

/-- Python 3 `round(x)`: round half to even (banker's rounding). -/
def pyRound (q : ℚ) : ℤ :=
  let f : ℤ := ⌊q⌋
  let r : ℚ := q - f
  if r < 1/2 then f
  else if 1/2 < r then f + 1
  else if f % 2 = 0 then f else f + 1

/-- Python `round(x, n)` modelled as exact decimal rounding to `n` digits. -/
def pyRoundTo (n : ℕ) (q : ℚ) : ℚ :=
  (pyRound (q * (10 ^ n : ℕ)) : ℚ) / (10 ^ n : ℕ)

/-- Python `int(x)` on a float: truncation toward zero. -/
def pyInt (q : ℚ) : ℤ :=
  if 0 ≤ q then ⌊q⌋ else ⌈q⌉

/-! ## GlobalResumeScoring (app/modules/scoring) -/

namespace Scoring

/-- `ScoringWeights` (scoring/schemas.py): four float weights.  The pydantic
fields carry no range constraint, so any rational values are representable. -/
structure ScoringWeights where
  skills_weight : ℚ
  experience_weight : ℚ
  achievement_weight : ℚ
  structure_weight : ℚ
deriving DecidableEq, Repr

/-- The default weights `{skills:0.35, experience:0.40, achievement:0.15,
structure:0.10}` (field defaults of `ScoringWeights`). -/
def defaultWeights : ScoringWeights :=
  ⟨35/100, 40/100, 15/100, 10/100⟩

/-- Sum of the four weights. -/
def ScoringWeights.total (w : ScoringWeights) : ℚ :=
  w.skills_weight + w.experience_weight + w.achievement_weight + w.structure_weight

/-- `ScoringWeights.validate_weights`: `abs(total - 1.0) < 0.001`.
No non-negativity check appears in the source. -/
def validate_weights (w : ScoringWeights) : Bool :=
  |w.total - 1| < 1/1000

/-- Weight selection in `compute_final_resume_score` (service.py lines 81-85):
`None` becomes the defaults, an invalid configuration is silently replaced by
the defaults, a valid one is used as supplied. -/
def effectiveWeights : Option ScoringWeights → ScoringWeights
  | none => defaultWeights
  | some w => if validate_weights w then w else defaultWeights

/-- `SCORE_TIERS` (service.py lines 51-56), in dict insertion order. -/
def SCORE_TIERS : List ((ℚ × ℚ) × String) :=
  [((90, 100), "Excellent"), ((75, 89), "Good"), ((60, 74), "Fair"), ((0, 59), "Poor")]

/-- `_get_recommendation_tier`: first tier whose closed range contains the
(unrounded) score, else `"Poor"`. -/
def get_recommendation_tier (score : ℚ) : String :=
  match SCORE_TIERS.find? (fun t => decide (t.1.1 ≤ score ∧ score ≤ t.1.2)) with
  | some t => t.2
  | none => "Poor"

/-- The weighted overall score of `compute_final_resume_score`
(lines 102-111): `Σ component·weight`, then `max(0, min(100, ·))`. -/
def overall_score (skills experience achievement structure_ : ℚ)
    (w : ScoringWeights) : ℚ :=
  max 0 (min 100
    (skills * w.skills_weight + experience * w.experience_weight +
     achievement * w.achievement_weight + structure_ * w.structure_weight))

/-- `ResumeStructuredSections` (scoring/schemas.py): the 7 string fields. -/
structure ResumeStructuredSections where
  summary : String
  skills : String
  experience : String
  education : String
  projects : String
  certifications : String
  other : String
deriving DecidableEq, Repr

/-- Python truthiness test `sections[s] and sections[s].strip()` used by
`_compute_structure_score`. -/
def sectionFilled (s : String) : Bool :=
  s ≠ "" && pyStrip s ≠ ""

/-- The per-section content-length bonus of `_compute_structure_score`
(lines 322-327): +2 when the stripped content exceeds 100 characters,
+1 when it exceeds 50. -/
def lengthBonus (s : String) : ℚ :=
  if s ≠ "" && (pyStrip s).length > 100 then 2
  else if s ≠ "" && (pyStrip s).length > 50 then 1
  else 0

/-- `_compute_structure_score` (lines 280-335).  Essential sections
(experience, skills) are worth 40 points each and are recorded in
`missing_sections` when absent; important sections (summary, education)
10 points, also recorded when absent; optional sections (projects,
certifications) 5 points and never recorded; plus the length bonus over
the six-section dict; capped at 100. -/
def compute_structure_score (s : ResumeStructuredSections) : ℚ × List String :=
  let essentialScore : ℚ := (if sectionFilled s.experience then 40 else 0) +
    (if sectionFilled s.skills then 40 else 0)
  let missingEssential : List String :=
    (if sectionFilled s.experience then [] else ["experience"]) ++
    (if sectionFilled s.skills then [] else ["skills"])
  let importantScore : ℚ := (if sectionFilled s.summary then 10 else 0) +
    (if sectionFilled s.education then 10 else 0)
  let missingImportant : List String :=
    (if sectionFilled s.summary then [] else ["summary"]) ++
    (if sectionFilled s.education then [] else ["education"])
  let optionalScore : ℚ := (if sectionFilled s.projects then 5 else 0) +
    (if sectionFilled s.certifications then 5 else 0)
  let bonus : ℚ := lengthBonus s.experience + lengthBonus s.skills +
    lengthBonus s.summary + lengthBonus s.education +
    lengthBonus s.projects + lengthBonus s.certifications
  (min (essentialScore + importantScore + optionalScore + bonus) 100,
   missingEssential ++ missingImportant)

end Scoring

/-! ## ExperienceAnalysisService duration calculation
(app/modules/experience_analysis/service.py, `_calculate_experience_duration`)

The regex scans over the text are modelled by their outputs: the list of
explicit `N years of experience` mentions that passed the `0 <= years <= 50`
filter (lines 191-206), and the list of candidate `(start_year, end_year)`
pairs produced by the six `DATE_PATTERNS` (with `present` already resolved
to the sampled current year, lines 219-250). -/

namespace ExperienceAnalysis

/-- Insertion of one pair into a lexicographically sorted list.  Python
`list.sort()` on int pairs orders lexicographically; since equal pairs are
indistinguishable, the sorted output is unique and insertion sort computes
exactly it. -/
def insertRange (r : ℕ × ℕ) : List (ℕ × ℕ) → List (ℕ × ℕ)
  | [] => [r]
  | x :: xs =>
    if r.1 < x.1 ∨ (r.1 = x.1 ∧ r.2 ≤ x.2) then r :: x :: xs
    else x :: insertRange r xs

/-- `date_ranges.sort()` (line 254). -/
def sortRanges (l : List (ℕ × ℕ)) : List (ℕ × ℕ) :=
  l.foldr insertRange []

/-- The merge loop of lines 257-261: start a new merged range when the next
start lies strictly beyond the end of the last merged range, otherwise
extend the last merged range's end by `max`. -/
def mergeLoop : List (ℕ × ℕ) → List (ℕ × ℕ) → List (ℕ × ℕ)
  | acc, [] => acc
  | acc, (s, e) :: rest =>
    match acc.getLast? with
    | none => mergeLoop [(s, e)] rest
    | some (ls, le) =>
      if s > le then mergeLoop (acc ++ [(s, e)]) rest
      else mergeLoop (acc.dropLast ++ [(ls, max le e)]) rest

/-- `_calculate_experience_duration` (lines 174-266).  When explicit
mentions exist their maximum is returned directly; otherwise candidate
ranges with `start > end` are discarded (the `start_year <= end_year`
guards), the rest sorted and merged, and `Σ (end - start)` capped at 50. -/
def calculate_experience_duration (yearsMentioned : List ℕ)
    (candidateRanges : List (ℕ × ℕ)) : ℕ :=
  if yearsMentioned ≠ [] then yearsMentioned.foldl max 0
  else
    let dateRanges := candidateRanges.filter (fun r => r.1 ≤ r.2)
    let merged := mergeLoop [] (sortRanges dateRanges)
    min (merged.foldl (fun acc r => acc + (r.2 - r.1)) 0) 50

/-- The duration rule exactly as claim C3 words it: discard ranges with
start > end, sort by start, fold left merging whenever the next range's
start is ≤ the current merged range's end, sum `end - start` over the
merged ranges, clamp to [0,50].  (Sorting "by start" resolves equal starts
by end, as Python tuple sort does.) -/
def claimDurationFromRanges (candidateRanges : List (ℕ × ℕ)) : ℕ :=
  let kept := candidateRanges.filter (fun r => ¬ r.1 > r.2)
  let sorted := sortRanges kept
  let merged := sorted.foldl
    (fun acc next =>
      match acc.getLast? with
      | none => [next]
      | some cur =>
        if next.1 ≤ cur.2 then acc.dropLast ++ [(cur.1, max cur.2 next.2)]
        else acc ++ [next]) []
  min ((merged.map (fun r => r.2 - r.1)).sum) 50

end ExperienceAnalysis

/-! ## ResumeParsingService (app/modules/parsing/service.py) -/

namespace Parsing

/-- `re.sub(r'\s+', ' ', text)` (line 128): every maximal whitespace run is
replaced by a single space.  `inRun` records whether the previous character
was part of a whitespace run already emitted as `' '`. -/
def collapseWsAux : Bool → List Char → List Char
  | _, [] => []
  | inRun, c :: cs =>
    if pyIsSpace c then
      if inRun then collapseWsAux true cs else ' ' :: collapseWsAux true cs
    else c :: collapseWsAux false cs

/-- First normalization substitution. -/
def collapseWs (l : List Char) : List Char :=
  collapseWsAux false l

/-- Action of `re.sub(r'\n\s*\n\s*\n+', '\n\n', ·)` (line 131) on one
maximal whitespace run: the pattern must start and end on a newline, so in
a run holding at least three newlines it consumes from the first to the
last newline (greedy `\s*` with backtracking) and leaves `"\n\n"`;
otherwise the run is untouched. -/
def collapseNlRun (run : List Char) : List Char :=
  if run.count '\n' ≥ 3 then
    run.takeWhile (fun c => c ≠ '\n') ++ '\n' :: '\n' ::
      (run.reverse.takeWhile (fun c => c ≠ '\n')).reverse
  else run

/-- Action of `re.sub(r'\s*\n\s*', '\n', ·)` (line 134) on one maximal
whitespace run: a run holding a newline is consumed whole (the flanking
`\s*` are greedy) and replaced by a single newline. -/
def tightenNlRun (run : List Char) : List Char :=
  if run.contains '\n' then ['\n'] else run

/-- Emits the pending (reversed) whitespace run through the action `f`. -/
def flushRun (f : List Char → List Char) (run : List Char) : List Char :=
  if run.isEmpty then [] else f run.reverse

/-- Walks the text, accumulating the current maximal whitespace run in
`run` (reversed) and passing each completed run through `f`. -/
def runSubAux (f : List Char → List Char) : List Char → List Char → List Char
  | run, [] => flushRun f run
  | run, c :: cs =>
    if pyIsSpace c then runSubAux f (c :: run) cs
    else flushRun f run ++ c :: runSubAux f [] cs

/-- Applies a per-run action to every maximal whitespace run of the text;
both substitutions above only ever match inside such a run, so this is
exactly `re.sub` for them. -/
def runSub (f : List Char → List Char) (l : List Char) : List Char :=
  runSubAux f [] l

/-- `_normalize_text` (lines 113-139): empty/blank input gives `""`, else
the three substitutions are applied in order and the result stripped. -/
def normalize_text (s : String) : String :=
  if s = "" ∨ pyStrip s = "" then ""
  else ⟨pyStripList (runSub tightenNlRun (runSub collapseNlRun (collapseWs s.data)))⟩

/-- `SECTION_KEYWORDS` (service.py lines 23-58), in dict insertion order. -/
def SECTION_KEYWORDS : List (String × List String) :=
  [("summary",
    ["summary", "profile", "objective", "professional summary",
     "career objective", "professional profile", "about me",
     "overview", "career summary", "personal statement"]),
   ("skills",
    ["skills", "technical skills", "core competencies", "competencies",
     "technical competencies", "key skills", "expertise", "technologies",
     "technical expertise", "programming skills", "software skills",
     "tools and technologies", "technical proficiencies"]),
   ("experience",
    ["experience", "work experience", "professional experience",
     "employment history", "career history", "work history",
     "professional background", "employment", "career",
     "work", "positions held", "professional positions"]),
   ("education",
    ["education", "educational background", "academic background",
     "academic qualifications", "academic history", "qualifications",
     "degrees", "academic achievements", "schooling", "universities",
     "academic", "studies"]),
   ("projects",
    ["projects", "key projects", "notable projects", "project experience",
     "project highlights", "portfolio", "work samples", "achievements",
     "accomplishments", "personal projects", "side projects"]),
   ("certifications",
    ["certifications", "certificates", "professional certifications",
     "licenses", "credentials", "training", "professional development",
     "continuing education", "professional training", "courses",
     "certified", "accreditation"])]

/-- ASCII `A`-`Z`. -/
def isUpperAZ (c : Char) : Bool := 'A' ≤ c && c ≤ 'Z'

/-- ASCII letter. -/
def isAsciiLetter (c : Char) : Bool := isUpperAZ c || ('a' ≤ c && c ≤ 'z')

/-- The character class `[A-Z\s&/\-:]` of the all-caps heading pattern. -/
def headClass1 (c : Char) : Bool :=
  isUpperAZ c || pyIsSpace c || c = '&' || c = '/' || c = '-' || c = ':'

/-- The character class `[a-zA-Z\s&/\-:]` of the title-case pattern. -/
def headClass2 (c : Char) : Bool :=
  isAsciiLetter c || pyIsSpace c || c = '&' || c = '/' || c = '-' || c = ':'

/-- The symbol class `[\*\-=\+]` of the framed-heading pattern. -/
def symClass (c : Char) : Bool := c = '*' || c = '-' || c = '=' || c = '+'

/-- Collapses each maximal run of characters satisfying `p` to one space
(`re.sub(r'[...]+', ' ', ·)` for a character class `[...]`). -/
def collapseClassAux (p : Char → Bool) : Bool → List Char → List Char
  | _, [] => []
  | inRun, c :: cs =>
    if p c then
      if inRun then collapseClassAux p true cs
      else ' ' :: collapseClassAux p true cs
    else c :: collapseClassAux p false cs

/-- Number of whitespace-separated words, Python `len(line.split())`. -/
def countWordsAux : Bool → List Char → ℕ
  | _, [] => 0
  | inWord, c :: cs =>
    if pyIsSpace c then countWordsAux false cs
    else (if inWord then 0 else 1) + countWordsAux true cs

/-- Python `len(s.split())`. -/
def countWords (l : List Char) : ℕ := countWordsAux false l

/-- Python substring containment `needle in hay` (contiguous). -/
def strContains (needle hay : List Char) : Bool :=
  (List.range (hay.length + 1)).any fun i =>
    decide ((hay.drop i).take needle.length = needle)

/-- Python `\w` (ASCII): alphanumeric or underscore. -/
def isWordChar (c : Char) : Bool := c.isAlphanum || c = '_'

/-- `re` word boundary `\b` at offset `j` of `l`: the word-character-ness
of the characters on either side differs (out of range counts non-word). -/
def boundaryAt (l : List Char) (j : ℕ) : Bool :=
  let prev := if j = 0 then false else
    match l.get? (j - 1) with | some c => isWordChar c | none => false
  let cur := match l.get? j with | some c => isWordChar c | none => false
  prev != cur

/-- `re.search(r'\b' + re.escape(kw) + r'\b', hay)`: some offset where the
literal `kw` occurs flanked by word boundaries. -/
def wordBoundarySearch (kw hay : List Char) : Bool :=
  (List.range (hay.length + 1)).any fun i =>
    decide ((hay.drop i).take kw.length = kw) && boundaryAt hay i &&
      boundaryAt hay (i + kw.length)

/-- `_is_potential_heading` (lines 225-262).  The four `re.match` patterns
reduce to character-class checks: `^[A-Z\s&/\-:]{3,}$` is `length ≥ 3` and
all characters in the class; `^[A-Z][a-zA-Z\s&/\-:]*:?\s*$` is a leading
capital with every remaining character in the star class (which already
contains `:` and whitespace, subsuming the `:?\s*` tail);
`^[\*\-=\+]{2,}.*[\*\-=\+]{2,}$` is `length ≥ 4` with the first two and
last two characters symbols; `^[A-Z]{3,}$` is `length ≥ 3` all capitals.
Failing those, a line of at most 4 words is a heading when any section
keyword occurs in it (substring, case-insensitive). -/
def is_potential_heading (line : String) : Bool :=
  let l := (pyStrip line).data
  let p1 := decide (l.length ≥ 3) && l.all headClass1
  let p2 := match l with
    | [] => false
    | c :: rest => isUpperAZ c && rest.all headClass2
  let p3 := decide (l.length ≥ 4) && (l.take 2).all symClass &&
    (l.reverse.take 2).all symClass
  let p4 := decide (l.length ≥ 3) && l.all isUpperAZ
  if p1 || p2 || p3 || p4 then true
  else if countWords l ≤ 4 then
    SECTION_KEYWORDS.any fun sec =>
      sec.2.any fun kw => strContains kw.data (l.map Char.toLower)
  else false

/-- One keyword test of `_classify_section`: exact equality or substring
containment, else a word-boundary search (the latter is subsumed by
containment but kept as in the source). -/
def keywordMatches (kw clean : String) : Bool :=
  kw = clean || strContains kw.data clean.data ||
    wordBoundarySearch kw.data clean.data

/-- `_classify_section` (lines 264-292): lower-case and strip the heading,
collapse runs of `[:\-\*=\+\s]` to single spaces and strip again, then
return the first section type one of whose keywords matches. -/
def classify_section (heading : String) : Option String :=
  let lower := pyLower (pyStrip heading)
  let clean := pyStrip ⟨collapseClassAux
    (fun c => c = ':' || c = '-' || c = '*' || c = '=' || c = '+' || pyIsSpace c)
    false lower.data⟩
  SECTION_KEYWORDS.findSome? fun sec =>
    if sec.2.any (fun kw => keywordMatches kw clean) then some sec.1 else none

/-- `_find_section_boundaries` (lines 196-223): for each line, strip it,
skip blank or very short lines, and record `(section_type, line_index)`
when the line looks like a heading and classifies to a known type. -/
def find_section_boundaries (lines : List String) : List (String × ℕ) :=
  lines.enum.filterMap fun p =>
    let clean := pyStrip p.2
    if clean.length < 3 then none
    else if is_potential_heading clean then
      (classify_section clean).map (fun t => (t, p.1))
    else none

/-- The fixed sections dict of `_detect_and_extract_sections`
(lines 152-160), as an ordered association list over exactly 7 keys. -/
def initialSections : List (String × String) :=
  [("summary", ""), ("skills", ""), ("experience", ""), ("education", ""),
   ("projects", ""), ("certifications", ""), ("other", "")]

/-- Assignment `sections[k] = v` to an existing key of the dict. -/
def setSection (k v : String) : List (String × String) → List (String × String)
  | [] => []
  | (k₀, v₀) :: rest =>
    if k₀ = k then (k₀, v) :: rest else (k₀, v₀) :: setSection k v rest

/-- Read of `sections[k]` (defaulting to `""` for an absent key). -/
def getSection (k : String) (l : List (String × String)) : String :=
  match l.find? (fun p => p.1 = k) with
  | some p => p.2
  | none => ""

/-- The extraction loop of `_detect_and_extract_sections` (lines 172-188):
each boundary's content runs from the line after its heading up to the next
boundary's heading line (or the end); non-empty content is stored under the
boundary's type when that key exists, otherwise appended to `"other"` with
a blank-line join. -/
def extractLoop (lines : List String) :
    List (String × ℕ) → List (String × String) → List (String × String)
  | [], acc => acc
  | b :: rest, acc =>
    let e := match rest with
      | b₂ :: _ => b₂.2
      | [] => lines.length
    let content := pyStrip
      (String.intercalate "\n" ((lines.drop (b.2 + 1)).take (e - (b.2 + 1))))
    let acc' :=
      if content ≠ "" then
        if acc.any (fun p => p.1 = b.1) then setSection b.1 content acc
        else
          setSection "other"
            (if getSection "other" acc ≠ "" then
              getSection "other" acc ++ "\n\n" ++ content
            else content) acc
      else acc
    extractLoop lines rest acc'

/-- Python `text.split('\n')` on a character list: splits at every
newline, keeping empty pieces. -/
def splitNl : List Char → List (List Char)
  | [] => [[]]
  | c :: cs =>
    let r := splitNl cs
    if c = '\n' then [] :: r
    else
      match r with
      | h :: t => (c :: h) :: t
      | [] => [[c]]

/-- Python `text.split('\n')` on a string. -/
def splitLines (text : String) : List String :=
  (splitNl text.data).map String.mk

/-- `_detect_and_extract_sections` (lines 141-194). -/
def detect_and_extract_sections (text : String) : List (String × String) :=
  if text = "" then initialSections
  else
    let lines := splitLines text
    let bs := find_section_boundaries lines
    let secs := extractLoop lines bs initialSections
    if secs.all (fun p => p.2 = "") then setSection "other" text secs
    else secs

/-- `ResumeParsingResponse` (parsing/schemas.py): the seven section fields
plus metadata. -/
structure ResumeParsingResponse where
  summary : String
  skills : String
  experience : String
  education : String
  projects : String
  certifications : String
  other : String
  sections_found : ℕ
  processing_time_seconds : ℚ
deriving DecidableEq, Repr

/-- `split_resume_into_sections` (lines 60-111).  The two `time.time()`
reads are the explicit parameters `t₀` (before) and `t₁` (after). -/
def split_resume_into_sections (text : String) (t₀ t₁ : ℚ) :
    ResumeParsingResponse :=
  let sections := detect_and_extract_sections (normalize_text text)
  { summary := getSection "summary" sections
    skills := getSection "skills" sections
    experience := getSection "experience" sections
    education := getSection "education" sections
    projects := getSection "projects" sections
    certifications := getSection "certifications" sections
    other := getSection "other" sections
    sections_found := (sections.filter (fun p => pyStrip p.2 ≠ "")).length
    processing_time_seconds := pyRoundTo 3 (t₁ - t₀) }

end Parsing

/-! ## SkillIntelligenceEngine (app/modules/skill_analysis/service.py)

The occurrence scan, context windows, deduplication, scoring, level,
years extraction and confidence are embedded from the source.  The
per-context regex signal detector `_detect_proficiency_signals` is taken
as an explicit function parameter `detect` (skill → context window →
position → signals); every theorem below is proved for all detectors, the
real regex-based one included. -/

namespace SkillAnalysis

/-- `SkillLevel` (skill_analysis/schemas.py). -/
inductive SkillLevel where
  | Beginner
  | Intermediate
  | Expert
deriving DecidableEq, Repr

/-- The enum's string value. -/
def SkillLevel.value : SkillLevel → String
  | .Beginner => "Beginner"
  | .Intermediate => "Intermediate"
  | .Expert => "Expert"

/-- `SkillContextSignal` (skill_analysis/schemas.py). -/
structure SkillContextSignal where
  signal_type : String
  signal_value : String
  context : String
  weight : ℚ
  position : ℕ
deriving DecidableEq, Repr

/-- `SkillProficiencyResult` (skill_analysis/schemas.py). -/
structure SkillProficiencyResult where
  skill : String
  score : ℕ
  level : SkillLevel
  years_experience : Option ℤ
  confidence : ℚ
  signals_detected : List String
deriving DecidableEq, Repr

/-- `LEVEL_KEYWORDS` (service.py lines 25-37), in dict insertion order. -/
def LEVEL_KEYWORDS : List (String × ℚ) :=
  [("expert", 90), ("advanced", 85), ("proficient", 75), ("experienced", 70),
   ("intermediate", 50), ("moderate", 45), ("basic", 30), ("beginner", 20),
   ("novice", 15), ("familiar", 25), ("learning", 20)]

/-- A regex literal match of `kw` at offset `i` of `t`, flanked by `\b`
word boundaries (the compiled pattern `\b` + `re.escape(skill)` + `\b`). -/
def matchAt (t kw : List Char) (i : ℕ) : Bool :=
  decide ((t.drop i).take kw.length = kw) && Parsing.boundaryAt t i &&
    Parsing.boundaryAt t (i + kw.length)

/-- `re.finditer` scan: non-overlapping matches left to right, resuming
after each match (zero-width matches advance by one).  `fuel` bounds the
recursion; every step advances the offset by at least one. -/
def scanOccurrences (t kw : List Char) : ℕ → ℕ → List ℕ
  | 0, _ => []
  | fuel + 1, i =>
    if i > t.length then []
    else if matchAt t kw i then
      i :: scanOccurrences t kw fuel (i + max kw.length 1)
    else scanOccurrences t kw fuel (i + 1)

/-- `_find_skill_occurrences` (lines 209-242): all word-boundary matches of
the lower-cased skill in the lower-cased text.  (`re.escape` always yields
a valid pattern, so the `re.error` fallback branch is unreachable.) -/
def find_skill_occurrences (skill text : String) : List ℕ :=
  let t := text.data.map Char.toLower
  let kw := skill.data.map Char.toLower
  scanOccurrences t kw (t.length + 1) 0

/-- `_extract_context_window` (lines 244-260): ±100 characters around the
mention, clipped to the string bounds, stripped. -/
def extract_context_window (text : String) (position : ℕ) (skill : String) :
    String :=
  let e := min text.data.length (position + skill.length + 100)
  let start := position - 100
  pyStrip ⟨(text.data.drop start).take (e - start)⟩

/-- `_deduplicate_signals` (lines 405-425): keep the first signal per
`(signal_type, signal_value.lower())` key. -/
def dedupAux : List (String × String) → List SkillContextSignal →
    List SkillContextSignal
  | _, [] => []
  | seen, s :: rest =>
    let key := (s.signal_type, pyLower s.signal_value)
    if seen.contains key then dedupAux seen rest
    else s :: dedupAux (key :: seen) rest

/-- Deduplication entry point. -/
def deduplicate_signals (signals : List SkillContextSignal) :
    List SkillContextSignal :=
  dedupAux [] signals

/-- Numeric value of a run of ASCII digits. -/
def digitsVal (ds : List Char) : ℕ :=
  ds.foldl (fun a c => 10 * a + (c.toNat - '0'.toNat)) 0

/-- Value of the leading `\d+(?:\.\d+)?` literal at the head of `l`
(the head is known to be a digit). -/
def parseNumberAt (l : List Char) : ℚ :=
  let intPart := l.takeWhile Char.isDigit
  let rest := l.dropWhile Char.isDigit
  match rest with
  | '.' :: r₂ =>
    let frac := r₂.takeWhile Char.isDigit
    if frac ≠ [] then
      (digitsVal intPart : ℚ) + (digitsVal frac : ℚ) / ((10 : ℚ) ^ frac.length)
    else (digitsVal intPart : ℚ)
  | _ => (digitsVal intPart : ℚ)

/-- `re.search(r'(\d+(?:\.\d+)?)', ·)`: value of the first number literal. -/
def findFirstNumber : List Char → Option ℚ
  | [] => none
  | c :: cs =>
    if c.isDigit then some (parseNumberAt (c :: cs))
    else findFirstNumber cs

/-- The accumulation loop of `_calculate_proficiency_score` (lines 440-463):
returns `(total_score, max_years_bonus)`. -/
def proficiencyFold (signals : List SkillContextSignal) : ℚ × ℚ :=
  signals.foldl
    (fun acc s =>
      if s.signal_type = "years_experience" then
        match findFirstNumber s.signal_value.data with
        | some n => (acc.1, max acc.2 (min (n * 15) 60))
        | none => acc
      else if s.signal_type = "level_keyword" then
        match LEVEL_KEYWORDS.find?
          (fun kv => Parsing.strContains kv.1.data (pyLower s.signal_value).data) with
        | some kv => (acc.1 + kv.2 * s.weight, acc.2)
        | none => acc
      else if s.signal_type = "strong_verb" then (acc.1 + 60 * s.weight, acc.2)
      else if s.signal_type = "weak_verb" then (acc.1 + s.weight * 30, acc.2)
      else acc)
    (0, 0)

/-- `_calculate_proficiency_score` (lines 427-475): no signals give the
minimal score 10; otherwise the signal contributions plus the best years
bonus plus the base 20, truncated to int and clamped to [0,100]. -/
def calculate_proficiency_score (signals : List SkillContextSignal) : ℕ :=
  if signals = [] then 10
  else
    let acc := proficiencyFold signals
    (max 0 (min 100 (pyInt (acc.1 + acc.2 + 20)))).toNat

/-- `LEVEL_THRESHOLDS` (lines 80-84), in dict insertion order. -/
def LEVEL_THRESHOLDS : List (SkillLevel × (ℕ × ℕ)) :=
  [(.Beginner, (0, 30)), (.Intermediate, (30, 60)), (.Expert, (60, 100))]

/-- `_score_to_level` (lines 477-492): first threshold band with
`min ≤ score < max`, else Expert (covers score = 100). -/
def score_to_level (score : ℕ) : SkillLevel :=
  match LEVEL_THRESHOLDS.find?
    (fun t => decide (t.2.1 ≤ score ∧ score < t.2.2)) with
  | some t => t.1
  | none => .Expert

/-- `_extract_years_experience` (lines 494-510): the first years signal's
numeric value as `int(float(...))`. -/
def extract_years_experience (signals : List SkillContextSignal) : Option ℤ :=
  match signals.find? (fun s => s.signal_type = "years_experience") with
  | some s =>
    match findFirstNumber s.signal_value.data with
    | some n => some (pyInt n)
    | none => none
  | none => none

/-- `_calculate_confidence` (lines 512-538). -/
def calculate_confidence (signals : List SkillContextSignal)
    (occurrences : ℕ) : ℚ :=
  if signals = [] then 1/10
  else
    let typeConf : ℚ := ((signals.map (·.signal_type)).dedup.length : ℚ) * (2/10)
    let occConf : ℚ := min ((occurrences : ℚ) * (1/10)) (3/10)
    let strengthConf : ℚ :=
      (signals.map (fun s => |s.weight|)).sum / (signals.length : ℚ)
    min 1 (typeConf + occConf + strengthConf)

/-- `_analyze_single_skill` (lines 150-207), parameterized by the signal
detector `detect` applied to each occurrence's context window. -/
def analyze_single_skill
    (detect : String → String → ℕ → List SkillContextSignal)
    (skill resume_text : String) : SkillProficiencyResult :=
  let occ := find_skill_occurrences skill resume_text
  if occ = [] then
    { skill := skill, score := 10, level := .Beginner,
      years_experience := none, confidence := 1/10,
      signals_detected := ["skill listed but no context found"] }
  else
    let signals := (occ.map (fun pos =>
      detect skill (extract_context_window resume_text pos skill) pos)).flatten
    let unique := deduplicate_signals signals
    let score := calculate_proficiency_score unique
    { skill := skill, score := score, level := score_to_level score,
      years_experience := extract_years_experience unique,
      confidence := calculate_confidence unique occ.length,
      signals_detected := unique.map (·.signal_value) }

/-- `SkillAnalysisResponse` (skill_analysis/schemas.py). -/
structure SkillAnalysisResponse where
  results : List SkillProficiencyResult
  total_skills_analyzed : ℕ
  average_proficiency_score : ℚ
  processing_time_seconds : ℚ
  summary : List (String × ℕ)
deriving DecidableEq, Repr

/-- `analyze_skill_proficiency` (lines 98-148).  The two `time.time()`
reads are the parameters `t₀` and `t₁`; the level-distribution dict is the
count per `SkillLevel` value in enum order. -/
def analyze_skill_proficiency
    (detect : String → String → ℕ → List SkillContextSignal)
    (skills : List String) (resume_text : String) (t₀ t₁ : ℚ) :
    SkillAnalysisResponse :=
  let results := skills.map (fun s => analyze_single_skill detect s resume_text)
  let average : ℚ :=
    if results.isEmpty then 0
    else ((results.map (fun r => (r.score : ℚ))).sum) / (results.length : ℚ)
  { results := results
    total_skills_analyzed := results.length
    average_proficiency_score := pyRoundTo 2 average
    processing_time_seconds := pyRoundTo 3 (t₁ - t₀)
    summary :=
      [("Beginner", results.countP (fun r => r.level = .Beginner)),
       ("Intermediate", results.countP (fun r => r.level = .Intermediate)),
       ("Expert", results.countP (fun r => r.level = .Expert))] }

end SkillAnalysis

/-! ## EvaluationReportGenerator (app/modules/report_generation/service.py) -/

namespace Report

/-- `SkillEvaluation` (report_generation/schemas.py). -/
structure SkillEvaluation where
  skill : String
  score : ℤ
  level : String
  years_experience : Option ℤ
  is_critical : Bool
deriving DecidableEq, Repr

/-- `ExperienceEvaluation` (report_generation/schemas.py). -/
structure ExperienceEvaluation where
  total_experience_years : ℤ
  seniority_level : String
  achievement_score : ℤ
  experience_strength_score : ℤ
  strong_verbs_count : ℤ
  weak_verbs_count : ℤ
  quantified_achievements : List String
deriving DecidableEq, Repr

/-- `ScoringResultData` (report_generation/schemas.py). -/
structure ScoringResultData where
  overall_score : ℤ
  skills_score : ℚ
  experience_score : ℚ
  achievement_score : ℚ
  structure_score : ℚ
  recommendation_tier : String
  missing_sections : List String
  key_strengths : List String
  improvement_areas : List String
deriving DecidableEq, Repr

/-- `ReportTemplateConfig` (report_generation/schemas.py) with its field
defaults. -/
structure ReportTemplateConfig where
  high_score_threshold : ℤ := 80
  moderate_score_threshold : ℤ := 60
  high_skill_threshold : ℤ := 70
  low_skill_threshold : ℤ := 40
  strong_achievement_threshold : ℤ := 75
  experience_strength_threshold : ℤ := 70
deriving DecidableEq, Repr

/-- The default configuration `ReportTemplateConfig()`. -/
def defaultConfig : ReportTemplateConfig := {}

/-- `CRITICAL_SKILLS` (service.py lines 29-47).  A Python `set`; membership
is all the strengths generator uses, so the listing order is irrelevant
there (the recommendation generator's iteration over the set is taken as a
parameter below, since Python set iteration order is unspecified). -/
def CRITICAL_SKILLS : List String :=
  ["python", "java", "javascript", "typescript", "c++", "c#", "go", "rust",
   "kotlin", "swift",
   "aws", "azure", "gcp", "google cloud", "docker", "kubernetes", "jenkins",
   "terraform", "ansible",
   "sql", "machine learning", "data science", "tensorflow", "pytorch",
   "spark", "hadoop",
   "react", "angular", "vue", "node.js", "spring", "django", "flask",
   "express",
   "postgresql", "mongodb", "redis", "elasticsearch", "mysql", "cassandra",
   "agile", "scrum", "devops", "microservices", "rest api", "graphql"]

/-- Python `', '.join(...)`. -/
def joinComma (l : List String) : String :=
  String.intercalate ", " l

/-- The fallback block of `_identify_strengths` (lines 251-258): when no
rule fired, fall back to a skills line and/or an experience line, and to a
generic line when both are unavailable. -/
def strengthsFallback (skill_analysis : List SkillEvaluation)
    (exp : ExperienceEvaluation) (strengths : List String) : List String :=
  if strengths = [] then
    let a :=
      if skill_analysis ≠ [] then
        ["Technical skills portfolio including " ++
          joinComma ((skill_analysis.take 3).map (·.skill))]
      else []
    let b :=
      if exp.total_experience_years > 0 then
        ["Professional experience in the field (" ++
          toString exp.total_experience_years ++ " years)"]
      else []
    if a ++ b = [] then ["Resume submitted for professional evaluation"]
    else a ++ b
  else strengths

/-- The two conditional fallbacks of `_identify_weaknesses`
(lines 324-330): a line when the overall score is below the moderate
threshold, and a line for any overall score below 95. -/
def weaknessFallback (r : ScoringResultData) (config : ReportTemplateConfig)
    (ws : List String) : List String :=
  let ws' :=
    if ws = [] ∧ r.overall_score < config.moderate_score_threshold then
      ws ++ ["Overall profile needs strengthening across multiple areas"]
    else ws
  if ws' = [] ∧ r.overall_score < 95 then
    ws' ++ ["Continue building expertise and documenting achievements for career growth"]
  else ws'

/-- The unconditional fallback of `_generate_recommendations`
(lines 410-415). -/
def recommendationsFallback (r : ScoringResultData)
    (config : ReportTemplateConfig) (recs : List String) : List String :=
  if recs = [] then
    if r.overall_score < config.moderate_score_threshold then
      ["Focus on skill development and gaining relevant professional experience"]
    else
      ["Continue documenting achievements and expanding technical expertise"]
  else recs

/-- `_identify_strengths` (lines 202-262): the ordered threshold rules,
the nested fallback block, and the `[:6]` cap. -/
def identify_strengths (r : ScoringResultData)
    (skill_analysis : List SkillEvaluation) (exp : ExperienceEvaluation)
    (config : ReportTemplateConfig) : List String :=
  let high_skills := skill_analysis.filter
    (fun s => s.score > config.high_skill_threshold)
  let s₁ :=
    if high_skills ≠ [] then
      let critical_high := high_skills.filter
        (fun s => CRITICAL_SKILLS.contains (pyLower s.skill))
      (if critical_high ≠ [] then
        ["Strong proficiency in critical technical skills: " ++
          joinComma ((critical_high.take 4).map (·.skill))]
      else []) ++
      (if high_skills.length ≥ 5 then
        ["Diverse technical skill portfolio with " ++
          toString high_skills.length ++ " high-proficiency skills"]
      else [])
    else []
  let s₂ :=
    if exp.experience_strength_score ≥ config.experience_strength_threshold then
      (if exp.total_experience_years ≥ 5 then
        ["Substantial professional experience (" ++
          toString exp.total_experience_years ++ " years)"]
      else []) ++
      (if exp.seniority_level = "Senior" ∨ exp.seniority_level = "Executive" then
        [exp.seniority_level ++ "-level professional background"]
      else [])
    else []
  let s₃ :=
    if exp.achievement_score ≥ config.strong_achievement_threshold then
      ["Strong track record of quantified professional achievements"] ++
      (if exp.quantified_achievements.length ≥ 3 then
        ["Multiple measurable accomplishments demonstrating impact"]
      else [])
    else []
  let s₄ :=
    if exp.strong_verbs_count > exp.weak_verbs_count * 2 then
      ["Strong leadership and action-oriented language throughout experience"]
    else []
  let s₅ :=
    if r.structure_score ≥ 90 then
      ["Well-organized resume structure with comprehensive sections"]
    else []
  let s₆ :=
    (if r.skills_score ≥ 85 then ["Exceptional technical skills evaluation"]
     else []) ++
    (if r.experience_score ≥ 85 then
      ["Outstanding professional experience quality"]
    else [])
  (strengthsFallback skill_analysis exp (s₁ ++ s₂ ++ s₃ ++ s₄ ++ s₅ ++ s₆)).take 6

/-- `_identify_weaknesses` (lines 264-334): the ordered threshold rules,
the two conditional fallbacks (the second one only fires below an overall
score of 95), and the `[:5]` cap. -/
def identify_weaknesses (r : ScoringResultData)
    (skill_analysis : List SkillEvaluation) (exp : ExperienceEvaluation)
    (config : ReportTemplateConfig) : List String :=
  let low_skills := skill_analysis.filter
    (fun s => s.score ≤ config.low_skill_threshold)
  let w₁ :=
    if low_skills ≠ [] then
      ["Limited proficiency in key skills: " ++
        joinComma ((low_skills.take 3).map (·.skill))]
    else []
  let w₂ :=
    if skill_analysis.length < 5 then
      ["Limited technical skills diversity - consider expanding skill set"]
    else []
  let w₃ :=
    if exp.experience_strength_score < config.experience_strength_threshold then
      ["Professional experience could benefit from stronger impact statements"]
    else []
  let w₄ :=
    if exp.total_experience_years < 2 then
      ["Limited professional experience - focus on skill development and practice projects"]
    else []
  let w₅ :=
    if exp.achievement_score < 50 then
      ["Lack of quantified achievements and measurable results"]
    else []
  let w₆ :=
    if exp.quantified_achievements.length = 0 then
      ["Missing specific metrics and quantified accomplishments"]
    else []
  let w₇ :=
    if exp.weak_verbs_count > exp.strong_verbs_count then
      ["Passive language - replace weak action verbs with stronger, more impactful terms"]
    else []
  let w₈ :=
    if r.missing_sections ≠ [] then
      ["Missing important resume sections: " ++ joinComma r.missing_sections]
    else []
  let w₉ :=
    if r.structure_score < 70 then
      ["Resume structure and organization could be improved"]
    else []
  let w₁₀ :=
    if r.skills_score < 60 then
      ["Technical skills evaluation indicates need for skill development"]
    else []
  let w₁₁ :=
    if r.experience_score < 60 then
      ["Professional experience section needs strengthening"]
    else []
  let w₁₂ :=
    if r.achievement_score < 40 then
      ["Limited demonstration of professional impact and achievements"]
    else []
  let w₁₃ :=
    if (exp.seniority_level = "Senior" ∨ exp.seniority_level = "Executive") ∧
        exp.achievement_score < 70 then
      ["Senior-level role should demonstrate stronger quantified achievements"]
    else []
  (weaknessFallback r config (w₁ ++ w₂ ++ w₃ ++ w₄ ++ w₅ ++ w₆ ++ w₇ ++ w₈ ++
    w₉ ++ w₁₀ ++ w₁₁ ++ w₁₂ ++ w₁₃)).take 5

/-- `_generate_recommendations` (lines 336-419).  `criticalIter` is the
(unspecified) iteration order of the `CRITICAL_SKILLS` set used by
`list(CRITICAL_SKILLS)[:10]`; everything proved below holds for every
order. -/
def generate_recommendations (criticalIter : List String)
    (r : ScoringResultData) (skill_analysis : List SkillEvaluation)
    (exp : ExperienceEvaluation) (config : ReportTemplateConfig) :
    List String :=
  let low_skills := skill_analysis.filter
    (fun s => s.score ≤ config.low_skill_threshold)
  let r₁ :=
    if low_skills ≠ [] then
      ["Enhance proficiency in " ++ joinComma ((low_skills.take 2).map (·.skill)) ++
        " through courses or hands-on projects"]
    else []
  let critical_missing := (criticalIter.take 10).filter
    (fun cs => ¬ skill_analysis.any (fun s => pyLower s.skill = cs))
  let r₂ :=
    if critical_missing ≠ [] ∧ skill_analysis.length < 8 then
      ["Consider adding in-demand skills like " ++
        joinComma (critical_missing.take 2) ++ " to strengthen technical profile"]
    else []
  let r₃ :=
    if exp.achievement_score < config.strong_achievement_threshold then
      ["Add specific metrics and quantified results to experience descriptions (e.g., \x27% improvement\x27, \x27$ saved\x27, \x27users served\x27)"]
    else []
  let r₄ :=
    if exp.weak_verbs_count > exp.strong_verbs_count then
      ["Replace passive language with strong action verbs like \x27led\x27, \x27implemented\x27, \x27optimized\x27, \x27designed\x27"]
    else []
  let r₅ :=
    if (exp.seniority_level = "Entry" ∨ exp.seniority_level = "Junior") ∧
        exp.total_experience_years ≥ 2 then
      ["Highlight leadership opportunities and initiatives to demonstrate career progression"]
    else []
  let essential_missing := r.missing_sections.filter
    (fun s => s = "summary" ∨ s = "skills" ∨ s = "experience")
  let r₆ :=
    if r.missing_sections ≠ [] ∧ essential_missing ≠ [] then
      ["Add essential resume sections: " ++ joinComma essential_missing]
    else []
  let r₇ :=
    if r.structure_score < 80 then
      ["Improve resume organization with clear section headings and consistent formatting"]
    else []
  let r₈ :=
    if exp.total_experience_years < 3 then
      ["Build experience through internships, freelance projects, or open-source contributions"]
    else []
  let r₉ :=
    if r.overall_score ≥ config.high_score_threshold ∧
        exp.seniority_level ≠ "Executive" then
      ["Consider pursuing leadership roles or certifications to advance to the next career level"]
    else []
  let r₁₀ :=
    if skill_analysis.length ≥ 8 ∧ exp.achievement_score ≥ 70 then
      ["Create a portfolio or GitHub profile to showcase practical application of your technical skills"]
    else []
  (recommendationsFallback r config
    (r₁ ++ r₂ ++ r₃ ++ r₄ ++ r₅ ++ r₆ ++ r₇ ++ r₈ ++ r₉ ++ r₁₀)).take 6

/-- Python `f"{x:.1f}"`, modelled as exact decimal rounding (half to even)
to one digit. -/
def format1f (q : ℚ) : String :=
  let n : ℤ := pyRound (q * 10)
  let sign := if n < 0 then "-" else ""
  let m := n.natAbs
  sign ++ toString (m / 10) ++ "." ++ toString (m % 10)

/-- Python `f"{x:.1%}"`: the value times 100 with one decimal and `%`. -/
def format1pct (q : ℚ) : String :=
  format1f (q * 100) ++ "%"

/-- `EvaluationSection` (report_generation/schemas.py). -/
structure EvaluationSection where
  title : String
  content : List String
  priority_level : String
deriving DecidableEq, Repr

/-- `EvaluationReportResponse` (report_generation/schemas.py).
`report_generated_at` is the `datetime.now()` default of the pydantic
field, modelled as a rational timestamp. -/
structure EvaluationReportResponse where
  overall_score : ℤ
  summary_statement : String
  profile_tier : String
  strengths : List String
  weaknesses : List String
  recommendations : List String
  skills_evaluation : EvaluationSection
  experience_evaluation : EvaluationSection
  structure_evaluation : EvaluationSection
  report_generated_at : ℚ
  evaluation_criteria : List (String × String)
  next_steps : List String
deriving DecidableEq, Repr

/-- `_generate_summary_statement` (lines 169-200): 3-band profile tier and
executive summary. -/
def generate_summary_statement (overall_score : ℤ)
    (config : ReportTemplateConfig) : String × String :=
  if overall_score ≥ config.high_score_threshold then
    ("This is a strong professional profile with an overall score of " ++
      toString overall_score ++
      "/100. The candidate demonstrates excellent qualifications with well-developed skills, substantial experience, and clear evidence of professional achievements. This profile would be competitive for senior-level positions.",
     "Strong Profile")
  else if overall_score ≥ config.moderate_score_threshold then
    ("This is a moderate professional profile with an overall score of " ++
      toString overall_score ++
      "/100. The candidate shows solid foundational skills and relevant experience, though there are opportunities for enhancement in certain areas. With targeted improvements, this profile could become highly competitive.",
     "Moderate Profile")
  else
    ("This is a developing professional profile with an overall score of " ++
      toString overall_score ++
      "/100. While the candidate shows potential, significant improvements are needed to enhance competitiveness. Focus on skill development, experience building, and resume optimization would strengthen this profile considerably.",
     "Developing Profile")

/-- `_create_skills_evaluation` (lines 421-466). -/
def create_skills_evaluation (skill_analysis : List SkillEvaluation)
    (skills_score : ℚ) (config : ReportTemplateConfig) : EvaluationSection :=
  if skill_analysis = [] then
    { title := "Skills Analysis",
      content := ["No technical skills identified for evaluation"],
      priority_level := "high" }
  else
    let expert_skills := skill_analysis.filter
      (fun s => s.level = "Expert" ∨ s.score ≥ 80)
    let advanced_skills := skill_analysis.filter
      (fun s => s.level = "Advanced" ∨ (60 ≤ s.score ∧ s.score < 80))
    let beginner_skills := skill_analysis.filter
      (fun s => s.level = "Beginner" ∨ s.score < 60)
    let critical_skills := skill_analysis.filter
      (fun s => CRITICAL_SKILLS.contains (pyLower s.skill))
    { title := "Skills Analysis",
      content :=
        ["Technical skills evaluation score: " ++ format1f skills_score ++ "/100",
         "Total skills identified: " ++ toString skill_analysis.length] ++
        (if expert_skills ≠ [] then
          ["Expert-level skills (" ++ toString expert_skills.length ++ "): " ++
            joinComma ((expert_skills.take 5).map (·.skill))]
        else []) ++
        (if advanced_skills ≠ [] then
          ["Advanced skills (" ++ toString advanced_skills.length ++ "): " ++
            joinComma ((advanced_skills.take 5).map (·.skill))]
        else []) ++
        (if beginner_skills ≠ [] then
          ["Developing skills (" ++ toString beginner_skills.length ++ "): " ++
            joinComma ((beginner_skills.take 3).map (·.skill))]
        else []) ++
        (if critical_skills ≠ [] then
          ["High-demand industry skills: " ++
            joinComma (critical_skills.map (·.skill))]
        else []),
      priority_level := "high" }

/-- `_create_experience_evaluation` (lines 468-511). -/
def create_experience_evaluation (exp : ExperienceEvaluation)
    (experience_score : ℚ) (config : ReportTemplateConfig) :
    EvaluationSection :=
  let achievementLine :=
    if exp.achievement_score ≥ config.strong_achievement_threshold then
      "Strong achievement record (score: " ++
        toString exp.achievement_score ++ "/100)"
    else if exp.achievement_score ≥ 50 then
      "Moderate achievement documentation (score: " ++
        toString exp.achievement_score ++ "/100)"
    else
      "Limited quantified achievements (score: " ++
        toString exp.achievement_score ++ "/100)"
  let verbLines :=
    if exp.strong_verbs_count > 0 ∨ exp.weak_verbs_count > 0 then
      let total := exp.strong_verbs_count + exp.weak_verbs_count
      let strong_ratio : ℚ :=
        if total > 0 then (exp.strong_verbs_count : ℚ) / (total : ℚ) else 0
      if strong_ratio > 6/10 then
        ["Strong action-oriented language (" ++
          toString exp.strong_verbs_count ++ " strong verbs)"]
      else
        ["Opportunity to improve action verb usage (ratio: " ++
          format1pct strong_ratio ++ ")"]
    else []
  let qualityLines :=
    if exp.total_experience_years ≥ 5 ∧
        (exp.seniority_level = "Senior" ∨ exp.seniority_level = "Executive") then
      ["Career progression aligns with experience level"]
    else if exp.total_experience_years ≥ 3 ∧
        (exp.seniority_level = "Entry" ∨ exp.seniority_level = "Junior") then
      ["Opportunity for career advancement based on experience"]
    else []
  { title := "Experience Analysis",
    content :=
      ["Professional experience score: " ++ format1f experience_score ++ "/100",
       "Total experience: " ++ toString exp.total_experience_years ++ " years",
       "Seniority level: " ++ exp.seniority_level,
       achievementLine] ++ verbLines ++ qualityLines,
    priority_level := "high" }

/-- `_create_structure_evaluation` (lines 513-541). -/
def create_structure_evaluation (missing_sections : List String)
    (structure_score : ℚ) (config : ReportTemplateConfig) :
    EvaluationSection :=
  { title := "Structure Analysis",
    content :=
      ["Resume structure score: " ++ format1f structure_score ++ "/100",
       if missing_sections = [] then
         "All essential resume sections are present"
       else "Missing sections: " ++ joinComma missing_sections,
       if structure_score ≥ 90 then
         "Excellent resume organization and completeness"
       else if structure_score ≥ 70 then
         "Good resume structure with minor improvements needed"
       else "Resume structure needs significant improvement"],
    priority_level := "medium" }

/-- `_generate_next_steps` (lines 543-574); the weaknesses and
recommendations parameters are accepted but unused, as in the source. -/
def generate_next_steps (r : ScoringResultData)
    (weaknesses recommendations : List String) : List String :=
  let base :=
    if r.overall_score < 60 then
      ["Focus on fundamental resume improvements and skill development",
       "Add quantified achievements and specific examples of impact"]
    else if r.overall_score < 80 then
      ["Enhance technical skills and strengthen experience descriptions",
       "Improve resume structure and add missing sections"]
    else
      ["Fine-tune resume for specific target positions",
       "Continue building expertise in emerging technologies"]
  (base ++
    (if r.skills_score < 70 then
      ["Invest in technical skill development through courses or certifications"]
    else []) ++
    (if r.experience_score < 70 then
      ["Rewrite experience descriptions with stronger action verbs and metrics"]
    else []) ++
    (if r.missing_sections ≠ [] then
      ["Complete all essential resume sections before applying"]
    else [])).take 4

/-- `generate_evaluation_report` (lines 61-151).  The two `datetime.now()`
reads are explicit parameters: `evalDate` is the `strftime("%Y-%m-%d")`
of the sample taken at line 131 for `evaluation_criteria`, and
`generatedAt` the timestamp sampled by the `report_generated_at`
pydantic field default at response construction.  `criticalIter` is the
set-iteration order used by the recommendations, as above. -/
def generate_evaluation_report (criticalIter : List String)
    (scoring_result : ScoringResultData)
    (skill_analysis : List SkillEvaluation)
    (experience_analysis : ExperienceEvaluation)
    (config : Option ReportTemplateConfig)
    (evalDate : String) (generatedAt : ℚ) : EvaluationReportResponse :=
  let cfg := match config with
    | none => defaultConfig
    | some c => c
  let sp := generate_summary_statement scoring_result.overall_score cfg
  let weaknesses :=
    identify_weaknesses scoring_result skill_analysis experience_analysis cfg
  let recommendations := generate_recommendations criticalIter scoring_result
    skill_analysis experience_analysis cfg
  { overall_score := scoring_result.overall_score
    summary_statement := sp.1
    profile_tier := sp.2
    strengths :=
      identify_strengths scoring_result skill_analysis experience_analysis cfg
    weaknesses := weaknesses
    recommendations := recommendations
    skills_evaluation :=
      create_skills_evaluation skill_analysis scoring_result.skills_score cfg
    experience_evaluation := create_experience_evaluation experience_analysis
      scoring_result.experience_score cfg
    structure_evaluation := create_structure_evaluation
      scoring_result.missing_sections scoring_result.structure_score cfg
    report_generated_at := generatedAt
    evaluation_criteria :=
      [("skills_weight", "35%"), ("experience_weight", "40%"),
       ("achievement_weight", "15%"), ("structure_weight", "10%"),
       ("evaluation_date", evalDate),
       ("scoring_methodology", "Rule-based multi-component analysis")]
    next_steps := generate_next_steps scoring_result weaknesses recommendations }

end Report

/-! ## Concrete inputs used by counterexamples and witnesses -/

/-- A sections record with only experience and skills populated (120
characters each, satisfying "non-trivial length"). -/
def c4sections : Scoring.ResumeStructuredSections :=
  { summary := "", skills := String.mk (List.replicate 120 's'),
    experience := String.mk (List.replicate 120 'e'), education := "",
    projects := "", certifications := "", other := "" }

/-- Five well-established skills, none below any weakness threshold. -/
def c10skills : List Report.SkillEvaluation :=
  [⟨"Python", 80, "Expert", none, true⟩, ⟨"Java", 80, "Expert", none, true⟩,
   ⟨"SQL", 80, "Expert", none, true⟩, ⟨"AWS", 80, "Expert", none, true⟩,
   ⟨"React", 80, "Expert", none, true⟩]

/-- An experience evaluation that triggers no weakness rule. -/
def c10exp : Report.ExperienceEvaluation :=
  { total_experience_years := 10, seniority_level := "Mid",
    achievement_score := 80, experience_strength_score := 90,
    strong_verbs_count := 10, weak_verbs_count := 0,
    quantified_achievements := ["Increased revenue by 50%"] }

/-- A scoring result with overall score 95 and no weak component. -/
def c10scoring : Report.ScoringResultData :=
  { overall_score := 95, skills_score := 85, experience_score := 85,
    achievement_score := 80, structure_score := 90,
    recommendation_tier := "Excellent", missing_sections := [],
    key_strengths := [], improvement_areas := [] }

/-- The same profile with overall score 50 (below the fallback cut-off). -/
def c10scoringLow : Report.ScoringResultData :=
  { overall_score := 50, skills_score := 85, experience_score := 85,
    achievement_score := 80, structure_score := 90,
    recommendation_tier := "Poor", missing_sections := [],
    key_strengths := [], improvement_areas := [] }

/-! ## Helper lemmas -/

theorem lengthBonus_le_two (s : String) : Scoring.lengthBonus s ≤ 2 := by
  unfold Scoring.lengthBonus
  split_ifs <;> norm_num

theorem foldl_sub_sum (l : List (ℕ × ℕ)) (n : ℕ) :
    l.foldl (fun acc r => acc + (r.2 - r.1)) n =
      n + (l.map (fun r => r.2 - r.1)).sum := by
  induction l generalizing n with
  | nil => simp
  | cons x xs ih => simp [ih]; omega

theorem mergeLoop_eq_foldl (l : List (ℕ × ℕ)) (acc : List (ℕ × ℕ)) :
    ExperienceAnalysis.mergeLoop acc l =
      l.foldl
        (fun acc next =>
          match acc.getLast? with
          | none => [next]
          | some cur =>
            if next.1 ≤ cur.2 then acc.dropLast ++ [(cur.1, max cur.2 next.2)]
            else acc ++ [next]) acc := by
  induction l generalizing acc with
  | nil => rfl
  | cons x xs ih =>
    obtain ⟨s, e⟩ := x
    rw [ExperienceAnalysis.mergeLoop, List.foldl_cons]
    cases h : acc.getLast? with
    | none => simp only [h]; exact ih _
    | some cur =>
      obtain ⟨ls, le⟩ := cur
      simp only [h]
      by_cases hle : s ≤ le
      · rw [if_neg (by omega), if_pos hle]; exact ih _
      · rw [if_pos (by omega), if_neg hle]; exact ih _

theorem mem_of_mem_dropWhile {α : Type} (p : α → Bool) (a : α) :
    ∀ l : List α, a ∈ l.dropWhile p → a ∈ l := by
  intro l
  induction l with
  | nil => simp [List.dropWhile]
  | cons c cs ih =>
    rw [List.dropWhile]
    cases hp : p c with
    | true => intro h; exact List.mem_cons_of_mem c (ih h)
    | false => intro h; exact h

theorem mem_of_mem_pyStripList (a : Char) (l : List Char)
    (h : a ∈ pyStripList l) : a ∈ l := by
  unfold pyStripList at h
  rw [List.mem_reverse] at h
  have h₂ := mem_of_mem_dropWhile pyIsSpace a _ h
  rw [List.mem_reverse] at h₂
  exact mem_of_mem_dropWhile pyIsSpace a _ h₂

theorem collapseWsAux_no_nl (l : List Char) :
    ∀ b : Bool, '\n' ∉ Parsing.collapseWsAux b l := by
  induction l with
  | nil => intro b; simp [Parsing.collapseWsAux]
  | cons c cs ih =>
    intro b
    rw [Parsing.collapseWsAux]
    by_cases hc : pyIsSpace c = true
    · rw [if_pos hc]
      cases b with
      | true => rw [if_pos rfl]; exact ih true
      | false =>
        rw [if_neg (by simp)]
        simp only [List.mem_cons]
        rintro (h | h)
        · exact absurd h (by decide)
        · exact ih true h
    · rw [if_neg hc]
      simp only [List.mem_cons]
      rintro (h | h)
      · rw [← h] at hc; exact hc (by decide)
      · exact ih false h

theorem flushRun_no_nl_id (f : List Char → List Char)
    (hf : ∀ r : List Char, '\n' ∉ r → f r = r) (run : List Char)
    (h : '\n' ∉ run) : Parsing.flushRun f run = run.reverse := by
  unfold Parsing.flushRun
  cases run with
  | nil => rfl
  | cons c cs =>
    rw [if_neg (by simp)]
    exact hf _ (by rw [List.mem_reverse]; exact h)

theorem runSubAux_no_nl_id (f : List Char → List Char)
    (hf : ∀ r : List Char, '\n' ∉ r → f r = r) :
    ∀ (l run : List Char), '\n' ∉ l → '\n' ∉ run →
      Parsing.runSubAux f run l = run.reverse ++ l := by
  intro l
  induction l with
  | nil =>
    intro run _ hrun
    rw [Parsing.runSubAux, flushRun_no_nl_id f hf run hrun, List.append_nil]
  | cons c cs ih =>
    intro run hl hrun
    have hc : c ≠ '\n' := fun h => hl (h ▸ List.mem_cons_self c cs)
    have hcs : '\n' ∉ cs := fun h => hl (List.mem_cons_of_mem c h)
    rw [Parsing.runSubAux]
    by_cases hsp : pyIsSpace c = true
    · rw [if_pos hsp, ih (c :: run) hcs (by
        simp only [List.mem_cons]
        rintro (h | h)
        · exact hc h.symm
        · exact hrun h)]
      simp
    · rw [if_neg hsp, flushRun_no_nl_id f hf run hrun, ih [] hcs (by simp)]
      simp

theorem runSub_no_nl_id (f : List Char → List Char)
    (hf : ∀ r : List Char, '\n' ∉ r → f r = r) (l : List Char)
    (h : '\n' ∉ l) : Parsing.runSub f l = l := by
  unfold Parsing.runSub
  rw [runSubAux_no_nl_id f hf l [] h (by simp)]
  rfl

theorem collapseNlRun_no_nl_id (run : List Char) (h : '\n' ∉ run) :
    Parsing.collapseNlRun run = run := by
  unfold Parsing.collapseNlRun
  rw [if_neg]
  rw [List.count_eq_zero_of_not_mem h]
  omega

theorem tightenNlRun_no_nl_id (run : List Char) (h : '\n' ∉ run) :
    Parsing.tightenNlRun run = run := by
  unfold Parsing.tightenNlRun
  rw [if_neg]
  simpa using h

theorem pyRound_mem_Icc (q : ℚ) (h0 : 0 ≤ q) (h1 : q ≤ 100) :
    0 ≤ pyRound q ∧ pyRound q ≤ 100 := by
  have hf0 : (0 : ℤ) ≤ ⌊q⌋ := Int.le_floor.mpr (by exact_mod_cast h0)
  have hf1 : ⌊q⌋ ≤ 100 := by
    have : ⌊q⌋ < 101 := Int.floor_lt.mpr (by push_cast; linarith)
    omega
  have hfl : (⌊q⌋ : ℚ) ≤ q := Int.floor_le q
  unfold pyRound
  simp only []
  split_ifs with h₁ h₂ h₃
  · exact ⟨hf0, hf1⟩
  · refine ⟨by omega, ?_⟩
    have h₄ : (⌊q⌋ : ℚ) < 100 := by linarith
    have : ⌊q⌋ < 100 := by exact_mod_cast h₄
    omega
  · exact ⟨hf0, hf1⟩
  · refine ⟨by omega, ?_⟩
    have hr : q - ⌊q⌋ = 1/2 := le_antisymm (not_lt.mp h₂) (not_lt.mp h₁)
    have : (⌊q⌋ : ℚ) < 100 := by linarith
    have : ⌊q⌋ < 100 := by exact_mod_cast this
    omega

theorem tier_eq_excellent (q : ℚ) (h₁ : 90 ≤ q) (h₂ : q ≤ 100) :
    Scoring.get_recommendation_tier q = "Excellent" := by
  simp [Scoring.get_recommendation_tier, Scoring.SCORE_TIERS, List.find?,
    h₁, h₂]

theorem tier_eq_good (q : ℚ) (h₁ : 75 ≤ q) (h₂ : q ≤ 89) :
    Scoring.get_recommendation_tier q = "Good" := by
  have h₃ : ¬ (90 ≤ q) := by linarith
  simp [Scoring.get_recommendation_tier, Scoring.SCORE_TIERS, List.find?,
    h₁, h₂, h₃]

theorem tier_eq_fair (q : ℚ) (h₁ : 60 ≤ q) (h₂ : q ≤ 74) :
    Scoring.get_recommendation_tier q = "Fair" := by
  have h₃ : ¬ (90 ≤ q) := by linarith
  have h₄ : ¬ (75 ≤ q) := by linarith
  simp [Scoring.get_recommendation_tier, Scoring.SCORE_TIERS, List.find?,
    h₁, h₂, h₃, h₄]

theorem tier_eq_poor (q : ℚ) (h₁ : 0 ≤ q) (h₂ : q ≤ 59) :
    Scoring.get_recommendation_tier q = "Poor" := by
  have h₃ : ¬ (90 ≤ q) := by linarith
  have h₄ : ¬ (75 ≤ q) := by linarith
  have h₅ : ¬ (60 ≤ q) := by linarith
  simp [Scoring.get_recommendation_tier, Scoring.SCORE_TIERS, List.find?,
    h₁, h₂, h₃, h₄, h₅]

theorem setSection_keys (k v : String) :
    ∀ l : List (String × String),
      (Parsing.setSection k v l).map Prod.fst = l.map Prod.fst := by
  intro l
  induction l with
  | nil => rfl
  | cons p rest ih =>
    obtain ⟨k₀, v₀⟩ := p
    rw [Parsing.setSection]
    by_cases h : k₀ = k
    · rw [if_pos h]; simp
    · rw [if_neg h]; simp [ih]

theorem getSection_setSection_ne (k k' v : String) (h : k ≠ k') :
    ∀ l : List (String × String),
      Parsing.getSection k' (Parsing.setSection k v l) =
        Parsing.getSection k' l := by
  intro l
  induction l with
  | nil => rfl
  | cons p rest ih =>
    obtain ⟨k₀, v₀⟩ := p
    rw [Parsing.setSection]
    by_cases h₀ : k₀ = k
    · rw [if_pos h₀]
      unfold Parsing.getSection
      rw [List.find?, List.find?]
      have : ¬ (k₀ = k') := h₀ ▸ h
      simp only [decide_eq_true_eq] at *
      rw [decide_eq_false this]
    · rw [if_neg h₀]
      unfold Parsing.getSection
      rw [List.find?, List.find?]
      cases hd : decide (k₀ = k') with
      | true => rfl
      | false => exact ih

theorem getSection_setSection_self (k v : String) :
    ∀ l : List (String × String), k ∈ l.map Prod.fst →
      Parsing.getSection k (Parsing.setSection k v l) = v := by
  intro l
  induction l with
  | nil => simp
  | cons p rest ih =>
    obtain ⟨k₀, v₀⟩ := p
    intro hk
    rw [Parsing.setSection]
    by_cases h₀ : k₀ = k
    · rw [if_pos h₀]
      unfold Parsing.getSection
      rw [List.find?, decide_eq_true h₀]
    · rw [if_neg h₀]
      unfold Parsing.getSection
      rw [List.find?, decide_eq_false h₀]
      apply ih
      simp only [List.map_cons, List.mem_cons] at hk
      rcases hk with h | h
      · exact absurd h.symm h₀
      · exact h

theorem extractLoop_keys (lines : List String) :
    ∀ (bs : List (String × ℕ)) (acc : List (String × String)),
      (Parsing.extractLoop lines bs acc).map Prod.fst = acc.map Prod.fst := by
  intro bs
  induction bs with
  | nil => intro acc; rfl
  | cons b rest ih =>
    intro acc
    rw [Parsing.extractLoop.eq_def]
    simp only []
    rw [ih]
    split_ifs <;> simp [setSection_keys]

theorem exists_of_findSome_eq_some {α β : Type} (f : α → Option β) (b : β) :
    ∀ l : List α, l.findSome? f = some b → ∃ a ∈ l, f a = some b := by
  intro l
  induction l with
  | nil => intro h; exact absurd h (by simp [List.findSome?])
  | cons a as ih =>
    intro h
    rw [List.findSome?] at h
    cases hf : f a with
    | some b' =>
      rw [hf] at h
      exact ⟨a, List.mem_cons_self _ _, hf.trans h⟩
    | none =>
      rw [hf] at h
      obtain ⟨a', ha', hfa'⟩ := ih h
      exact ⟨a', List.mem_cons_of_mem _ ha', hfa'⟩

theorem classify_section_mem (h : String) (t : String)
    (hc : Parsing.classify_section h = some t) :
    t ∈ ["summary", "skills", "experience", "education", "projects",
      "certifications"] := by
  unfold Parsing.classify_section at hc
  obtain ⟨sec, hmem, hsec⟩ := exists_of_findSome_eq_some _ t _ hc
  have ht : t = sec.1 := by
    split_ifs at hsec with hany
    exact (Option.some_inj.mp hsec).symm
  have : sec.1 ∈ Parsing.SECTION_KEYWORDS.map Prod.fst :=
    List.mem_map_of_mem Prod.fst hmem
  rw [ht]
  exact this

theorem find_section_boundaries_mem (lines : List String) (b : String × ℕ)
    (hb : b ∈ Parsing.find_section_boundaries lines) :
    b.1 ∈ ["summary", "skills", "experience", "education", "projects",
      "certifications"] := by
  unfold Parsing.find_section_boundaries at hb
  obtain ⟨p, hp, hfp⟩ := List.mem_filterMap.mp hb
  simp only [] at hfp
  split_ifs at hfp with h₁ h₂
  obtain ⟨t, hct, heq⟩ := Option.map_eq_some'.mp hfp
  rw [← heq]
  exact classify_section_mem _ t hct

theorem extractLoop_other_empty (lines : List String) :
    ∀ (bs : List (String × ℕ)) (acc : List (String × String)),
      (∀ b ∈ bs, b.1 ∈ ["summary", "skills", "experience", "education",
        "projects", "certifications"]) →
      acc.map Prod.fst = ["summary", "skills", "experience", "education",
        "projects", "certifications", "other"] →
      Parsing.getSection "other" acc = "" →
      Parsing.getSection "other" (Parsing.extractLoop lines bs acc) = "" := by
  intro bs
  induction bs with
  | nil => intro acc _ _ hoth; exact hoth
  | cons b rest ih =>
    intro acc hbs hkeys hoth
    have h₆ : b.1 ∈ ["summary", "skills", "experience", "education",
        "projects", "certifications"] := hbs b (List.mem_cons_self _ _)
    have hto : b.1 ≠ "other" := by
      intro he
      have h₆' : ("other" : String) ∈ ["summary", "skills", "experience",
          "education", "projects", "certifications"] := by
        rw [← he]; exact h₆
      exact absurd h₆' (by decide)
    have ht₇ : b.1 ∈ acc.map Prod.fst := by
      rw [hkeys]
      simp only [List.mem_cons] at h₆ ⊢
      tauto
    have hany : acc.any (fun p => p.1 = b.1) = true := by
      rw [List.any_eq_true]
      obtain ⟨p, hp, hpt⟩ := List.mem_map.mp ht₇
      exact ⟨p, hp, by rw [decide_eq_true_eq]; exact hpt⟩
    rw [Parsing.extractLoop.eq_def]
    simp only []
    apply ih _ (fun b hb => hbs b (List.mem_cons_of_mem _ hb))
    · split_ifs <;> simp [setSection_keys, hkeys]
    · split_ifs with h₁
      · rw [getSection_setSection_ne b.1 "other" _ hto]
        exact hoth
      · exact hoth

theorem take_ne_nil_of_ne_nil {α : Type} {l : List α} (h : l ≠ []) {n : ℕ}
    (hn : n ≠ 0) : l.take n ≠ [] := by
  cases l with
  | nil => exact absurd rfl h
  | cons a as =>
    cases n with
    | zero => exact absurd rfl hn
    | succ m => simp [List.take]

theorem strengthsFallback_ne_nil (sa : List Report.SkillEvaluation)
    (exp : Report.ExperienceEvaluation) (s : List String) :
    Report.strengthsFallback sa exp s ≠ [] := by
  unfold Report.strengthsFallback
  simp only []
  split_ifs <;> simp_all

theorem weaknessFallback_ne_nil_of_lt (r : Report.ScoringResultData)
    (config : Report.ReportTemplateConfig) (ws : List String)
    (h : r.overall_score < 95) : Report.weaknessFallback r config ws ≠ [] := by
  unfold Report.weaknessFallback
  simp only []
  split_ifs with h₁ h₂ h₃ <;> try simp
  push_neg at h₃
  intro hnil
  exact absurd h (not_lt.mpr (h₃ hnil))

theorem recommendationsFallback_ne_nil (r : Report.ScoringResultData)
    (config : Report.ReportTemplateConfig) (recs : List String) :
    Report.recommendationsFallback r config recs ≠ [] := by
  unfold Report.recommendationsFallback
  split_ifs with h₁ h₂
  · simp
  · simp
  · exact h₁

/-! ## Claim theorems -/

/-- C1: for every well-formed ScoreBreakdown-style input (component scores
in [0,100], validated weights), the overall score of
`compute_final_resume_score` lies in [0,100] (both before and after the
final int rounding), and `_get_recommendation_tier` matches the band table
`[90,100]=Excellent, [75,89]=Good, [60,74]=Fair, [0,59]=Poor` exactly at
the boundaries: a score of 90 gives Excellent, 89 gives Good. -/
theorem overall_score_bounds_and_tier (s e a st : ℚ)
    (w : Scoring.ScoringWeights)
    (hs₀ : 0 ≤ s) (hs₁ : s ≤ 100) (he₀ : 0 ≤ e) (he₁ : e ≤ 100)
    (ha₀ : 0 ≤ a) (ha₁ : a ≤ 100) (hst₀ : 0 ≤ st) (hst₁ : st ≤ 100)
    (hw : Scoring.validate_weights w = true)
    (ov : ℚ) (hov : ov = Scoring.overall_score s e a st w) :
    (0 ≤ ov ∧ ov ≤ 100) ∧ (0 ≤ pyRound ov ∧ pyRound ov ≤ 100) ∧
    (90 ≤ ov → Scoring.get_recommendation_tier ov = "Excellent") ∧
    (75 ≤ ov ∧ ov ≤ 89 → Scoring.get_recommendation_tier ov = "Good") ∧
    (60 ≤ ov ∧ ov ≤ 74 → Scoring.get_recommendation_tier ov = "Fair") ∧
    (ov ≤ 59 → Scoring.get_recommendation_tier ov = "Poor") := by
  have h₀ : 0 ≤ ov := by
    rw [hov, Scoring.overall_score]; exact le_max_left 0 _
  have h₁ : ov ≤ 100 := by
    rw [hov, Scoring.overall_score]
    exact max_le (by norm_num) (min_le_left _ _)
  refine ⟨⟨h₀, h₁⟩, pyRound_mem_Icc ov h₀ h₁, ?_, ?_, ?_, ?_⟩
  · exact fun h => tier_eq_excellent ov h h₁
  · exact fun h => tier_eq_good ov h.1 h.2
  · exact fun h => tier_eq_fair ov h.1 h.2
  · exact fun h => tier_eq_poor ov h₀ h

/-- C1 witness: all components at 90 (resp. 89) under the default weights
give an overall score of exactly 90 (resp. 89) and the boundary tiers. -/
theorem overall_score_bounds_and_tier_witness :
    Scoring.overall_score 90 90 90 90 Scoring.defaultWeights = 90 ∧
    Scoring.overall_score 89 89 89 89 Scoring.defaultWeights = 89 ∧
    Scoring.get_recommendation_tier 90 = "Excellent" ∧
    Scoring.get_recommendation_tier 89 = "Good" := by
  have hval : Scoring.validate_weights Scoring.defaultWeights = true := by
    simp [Scoring.validate_weights, Scoring.ScoringWeights.total,
      Scoring.defaultWeights]
    norm_num
  have h90 : Scoring.overall_score 90 90 90 90 Scoring.defaultWeights = 90 := by
    norm_num [Scoring.overall_score, Scoring.defaultWeights, min_def, max_def]
  have h89 : Scoring.overall_score 89 89 89 89 Scoring.defaultWeights = 89 := by
    norm_num [Scoring.overall_score, Scoring.defaultWeights, min_def, max_def]
  refine ⟨h90, h89, ?_, ?_⟩
  · exact (overall_score_bounds_and_tier 90 90 90 90 Scoring.defaultWeights
      (by norm_num) (by norm_num) (by norm_num) (by norm_num) (by norm_num)
      (by norm_num) (by norm_num) (by norm_num) hval 90 h90.symm).2.2.1
      (by norm_num)
  · exact (overall_score_bounds_and_tier 89 89 89 89 Scoring.defaultWeights
      (by norm_num) (by norm_num) (by norm_num) (by norm_num) (by norm_num)
      (by norm_num) (by norm_num) (by norm_num) hval 89 h89.symm).2.2.2.1
      ⟨by norm_num, by norm_num⟩

/-- C3: in `_calculate_experience_duration`, when no explicit
years-of-experience mention is found, candidate date ranges with
start > end are discarded, the rest sorted by start (ties by end) and
merged whenever the next start is ≤ the current merged end, and the total
is `Σ (end − start)` over the merged ranges clamped to [0,50]; in
particular the ranges 2018-2020 and 2019-2022 yield 4 years, not 5. -/
theorem duration_merges_overlapping_ranges (ym : List ℕ)
    (ranges : List (ℕ × ℕ)) (h : ym = []) :
    ExperienceAnalysis.calculate_experience_duration ym ranges =
      ExperienceAnalysis.claimDurationFromRanges ranges ∧
    ExperienceAnalysis.calculate_experience_duration ym ranges ≤ 50 ∧
    ExperienceAnalysis.calculate_experience_duration [] [(2018, 2020), (2019, 2022)] = 4 := by
  subst h
  refine ⟨?_, ?_, by decide⟩
  · rw [ExperienceAnalysis.calculate_experience_duration,
      ExperienceAnalysis.claimDurationFromRanges]
    simp only [ne_eq, not_true_eq_false, if_false, reduceIte]
    rw [mergeLoop_eq_foldl, foldl_sub_sum]
    simp [gt_iff_lt, not_lt]
  · rw [ExperienceAnalysis.calculate_experience_duration]
    simp

/-- C3 witness: the merge applied to the spec's concrete overlapping
ranges. -/
theorem duration_merges_overlapping_ranges_witness :
    ExperienceAnalysis.calculate_experience_duration [] [(2018, 2020), (2019, 2022)] =
      ExperienceAnalysis.claimDurationFromRanges [(2018, 2020), (2019, 2022)] ∧
    ExperienceAnalysis.calculate_experience_duration [] [(2018, 2020), (2019, 2022)] = 4 :=
  ⟨(duration_merges_overlapping_ranges [] [(2018, 2020), (2019, 2022)] rfl).1,
   (duration_merges_overlapping_ranges [] [] rfl).2.2⟩

/-- C9: a skill with zero case-insensitive word-boundary occurrences in
the resume text gets exactly score 10, level Beginner, no years, confidence
0.1 and the single signal "skill listed but no context found" — for every
signal detector, the regex-based one included. -/
theorem absent_skill_minimal_result
    (detect : String → String → ℕ → List SkillAnalysis.SkillContextSignal)
    (skill text : String) (skills : List String) (t₀ t₁ : ℚ)
    (h : SkillAnalysis.find_skill_occurrences skill text = []) :
    SkillAnalysis.analyze_single_skill detect skill text =
      { skill := skill, score := 10, level := .Beginner,
        years_experience := none, confidence := 1/10,
        signals_detected := ["skill listed but no context found"] } ∧
    (SkillAnalysis.analyze_skill_proficiency detect skills text t₀ t₁).results =
      skills.map (fun s => SkillAnalysis.analyze_single_skill detect s text) := by
  refine ⟨?_, rfl⟩
  rw [SkillAnalysis.analyze_single_skill, h]
  simp

/-- C9 witness: the spec's absent-skill example, COBOL against a resume
text that never mentions it. -/
theorem absent_skill_minimal_result_witness :
    SkillAnalysis.find_skill_occurrences "COBOL"
      "python developer with java experience" = [] ∧
    SkillAnalysis.analyze_single_skill (fun _ _ _ => []) "COBOL"
        "python developer with java experience" =
      { skill := "COBOL", score := 10, level := .Beginner,
        years_experience := none, confidence := 1/10,
        signals_detected := ["skill listed but no context found"] } :=
  ⟨by decide,
   (absent_skill_minimal_result (fun _ _ _ => []) "COBOL"
     "python developer with java experience" ["COBOL"] 0 0 (by decide)).1⟩

/-- C10 counterexample: an input with overall score 95 and no weakness
rule firing returns an empty weaknesses list — the generic fallback line
only fires below an overall score of 95, so the list is not guaranteed
non-empty. -/
theorem weaknesses_empty_for_exceptional_profile :
    Report.identify_weaknesses c10scoring c10skills c10exp
      Report.defaultConfig = [] := by
  decide

/-- C10 amended: strengths are capped at 6 and always non-empty,
recommendations capped at 6 and always non-empty, weaknesses capped at 5
and non-empty whenever the overall score is below 95 (an exceptional
profile with no firing rule gets an empty weaknesses list). -/
theorem report_list_caps_and_fallbacks (criticalIter : List String)
    (r : Report.ScoringResultData) (sa : List Report.SkillEvaluation)
    (exp : Report.ExperienceEvaluation) (config : Report.ReportTemplateConfig) :
    (Report.identify_strengths r sa exp config).length ≤ 6 ∧
    Report.identify_strengths r sa exp config ≠ [] ∧
    (Report.identify_weaknesses r sa exp config).length ≤ 5 ∧
    (Report.generate_recommendations criticalIter r sa exp config).length ≤ 6 ∧
    Report.generate_recommendations criticalIter r sa exp config ≠ [] ∧
    (r.overall_score < 95 →
      Report.identify_weaknesses r sa exp config ≠ []) := by
  refine ⟨?_, ?_, ?_, ?_, ?_, ?_⟩
  · exact (List.length_take 6 _).trans_le (min_le_left _ _)
  · exact take_ne_nil_of_ne_nil (strengthsFallback_ne_nil _ _ _) (by norm_num)
  · exact (List.length_take 5 _).trans_le (min_le_left _ _)
  · exact (List.length_take 6 _).trans_le (min_le_left _ _)
  · exact take_ne_nil_of_ne_nil (recommendationsFallback_ne_nil _ _ _) (by norm_num)
  · intro hov
    exact take_ne_nil_of_ne_nil (weaknessFallback_ne_nil_of_lt _ _ _ hov) (by norm_num)

/-- C10 witness: the bounds and all three non-emptiness facts at a
concrete below-95 profile. -/
theorem report_list_caps_and_fallbacks_witness :
    (Report.identify_strengths c10scoringLow c10skills c10exp
      Report.defaultConfig).length ≤ 6 ∧
    Report.identify_strengths c10scoringLow c10skills c10exp
      Report.defaultConfig ≠ [] ∧
    (Report.identify_weaknesses c10scoringLow c10skills c10exp
      Report.defaultConfig).length ≤ 5 ∧
    (Report.generate_recommendations Report.CRITICAL_SKILLS c10scoringLow
      c10skills c10exp Report.defaultConfig).length ≤ 6 ∧
    Report.generate_recommendations Report.CRITICAL_SKILLS c10scoringLow
      c10skills c10exp Report.defaultConfig ≠ [] ∧
    Report.identify_weaknesses c10scoringLow c10skills c10exp
      Report.defaultConfig ≠ [] := by
  have h := report_list_caps_and_fallbacks Report.CRITICAL_SKILLS
    c10scoringLow c10skills c10exp Report.defaultConfig
  exact ⟨h.1, h.2.1, h.2.2.1, h.2.2.2.1, h.2.2.2.2.1,
    h.2.2.2.2.2 (by decide)⟩

/-- C2 counterexample: the parsing and skill-analysis responses carry a
`processing_time_seconds` field computed from the two `time.time()` reads,
and the report response carries a `report_generated_at` timestamp from
`datetime.now()`, so two runs on identical inputs (and identical calendar
now — the report's `evaluation_date` is the same in both runs) whose
wall-clock samples differ produce different outputs. -/
theorem pipeline_output_depends_on_clock :
    Parsing.split_resume_into_sections "x" 0 0 ≠
      Parsing.split_resume_into_sections "x" 0 (1/2) ∧
    SkillAnalysis.analyze_skill_proficiency (fun _ _ _ => []) [] "" 0 0 ≠
      SkillAnalysis.analyze_skill_proficiency (fun _ _ _ => []) [] "" 0 1 ∧
    Report.generate_evaluation_report Report.CRITICAL_SKILLS c10scoring
        c10skills c10exp none "2025-01-01" 0 ≠
      Report.generate_evaluation_report Report.CRITICAL_SKILLS c10scoring
        c10skills c10exp none "2025-01-01" 1 := by
  have hpt : ∀ t₀ t₁ : ℚ,
      (Parsing.split_resume_into_sections "x" t₀ t₁).processing_time_seconds =
        pyRoundTo 3 (t₁ - t₀) := fun _ _ => rfl
  have hpt' : ∀ t₀ t₁ : ℚ,
      (SkillAnalysis.analyze_skill_proficiency (fun _ _ _ => []) [] "" t₀ t₁).processing_time_seconds =
        pyRoundTo 3 (t₁ - t₀) := fun _ _ => rfl
  have h0 : pyRoundTo 3 (0 - 0 : ℚ) = 0 := by
    norm_num [pyRoundTo, pyRound]
  have hhalf : pyRoundTo 3 ((1/2 : ℚ) - 0) = 1/2 := by
    norm_num [pyRoundTo, pyRound]
  have h1 : pyRoundTo 3 ((1 : ℚ) - 0) = 1 := by
    norm_num [pyRoundTo, pyRound]
  refine ⟨?_, ?_, ?_⟩
  · intro h
    have := congrArg Parsing.ResumeParsingResponse.processing_time_seconds h
    rw [hpt, hpt, h0, hhalf] at this
    norm_num at this
  · intro h
    have := congrArg SkillAnalysis.SkillAnalysisResponse.processing_time_seconds h
    rw [hpt', hpt', h0, h1] at this
    norm_num at this
  · intro h
    have := congrArg Report.EvaluationReportResponse.report_generated_at h
    have h01 : (0 : ℚ) ≠ 1 := by norm_num
    exact h01 this

/-- C2 amended: the only clock-dependent fields of the stage responses are
`processing_time_seconds` of the parsing and skill-analysis responses
(wall-clock elapsed time), `report_generated_at` of the report response (a
`datetime.now()` timestamp), and the report's
`evaluation_criteria["evaluation_date"]`, which depends only on the
sampled "now" date and so agrees across runs with identical "now"; every
other field of the three responses is independent of the clock samples. -/
theorem stage_outputs_clock_free_except_timing (text : String)
    (t₀ t₁ t₀' t₁' : ℚ)
    (detect : String → String → ℕ → List SkillAnalysis.SkillContextSignal)
    (skills : List String) (rtext : String) (u₀ u₁ u₀' u₁' : ℚ)
    (criticalIter : List String) (sr : Report.ScoringResultData)
    (sa : List Report.SkillEvaluation) (exp : Report.ExperienceEvaluation)
    (cfg : Option Report.ReportTemplateConfig)
    (evalDate evalDate' : String) (gAt gAt' : ℚ) :
    ((Parsing.split_resume_into_sections text t₀ t₁).summary =
        (Parsing.split_resume_into_sections text t₀' t₁').summary ∧
      (Parsing.split_resume_into_sections text t₀ t₁).skills =
        (Parsing.split_resume_into_sections text t₀' t₁').skills ∧
      (Parsing.split_resume_into_sections text t₀ t₁).experience =
        (Parsing.split_resume_into_sections text t₀' t₁').experience ∧
      (Parsing.split_resume_into_sections text t₀ t₁).education =
        (Parsing.split_resume_into_sections text t₀' t₁').education ∧
      (Parsing.split_resume_into_sections text t₀ t₁).projects =
        (Parsing.split_resume_into_sections text t₀' t₁').projects ∧
      (Parsing.split_resume_into_sections text t₀ t₁).certifications =
        (Parsing.split_resume_into_sections text t₀' t₁').certifications ∧
      (Parsing.split_resume_into_sections text t₀ t₁).other =
        (Parsing.split_resume_into_sections text t₀' t₁').other ∧
      (Parsing.split_resume_into_sections text t₀ t₁).sections_found =
        (Parsing.split_resume_into_sections text t₀' t₁').sections_found) ∧
    ((SkillAnalysis.analyze_skill_proficiency detect skills rtext u₀ u₁).results =
        (SkillAnalysis.analyze_skill_proficiency detect skills rtext u₀' u₁').results ∧
      (SkillAnalysis.analyze_skill_proficiency detect skills rtext u₀ u₁).total_skills_analyzed =
        (SkillAnalysis.analyze_skill_proficiency detect skills rtext u₀' u₁').total_skills_analyzed ∧
      (SkillAnalysis.analyze_skill_proficiency detect skills rtext u₀ u₁).average_proficiency_score =
        (SkillAnalysis.analyze_skill_proficiency detect skills rtext u₀' u₁').average_proficiency_score ∧
      (SkillAnalysis.analyze_skill_proficiency detect skills rtext u₀ u₁).summary =
        (SkillAnalysis.analyze_skill_proficiency detect skills rtext u₀' u₁').summary) ∧
    ((Report.generate_evaluation_report criticalIter sr sa exp cfg evalDate gAt).overall_score =
        (Report.generate_evaluation_report criticalIter sr sa exp cfg evalDate' gAt').overall_score ∧
      (Report.generate_evaluation_report criticalIter sr sa exp cfg evalDate gAt).summary_statement =
        (Report.generate_evaluation_report criticalIter sr sa exp cfg evalDate' gAt').summary_statement ∧
      (Report.generate_evaluation_report criticalIter sr sa exp cfg evalDate gAt).profile_tier =
        (Report.generate_evaluation_report criticalIter sr sa exp cfg evalDate' gAt').profile_tier ∧
      (Report.generate_evaluation_report criticalIter sr sa exp cfg evalDate gAt).strengths =
        (Report.generate_evaluation_report criticalIter sr sa exp cfg evalDate' gAt').strengths ∧
      (Report.generate_evaluation_report criticalIter sr sa exp cfg evalDate gAt).weaknesses =
        (Report.generate_evaluation_report criticalIter sr sa exp cfg evalDate' gAt').weaknesses ∧
      (Report.generate_evaluation_report criticalIter sr sa exp cfg evalDate gAt).recommendations =
        (Report.generate_evaluation_report criticalIter sr sa exp cfg evalDate' gAt').recommendations ∧
      (Report.generate_evaluation_report criticalIter sr sa exp cfg evalDate gAt).skills_evaluation =
        (Report.generate_evaluation_report criticalIter sr sa exp cfg evalDate' gAt').skills_evaluation ∧
      (Report.generate_evaluation_report criticalIter sr sa exp cfg evalDate gAt).experience_evaluation =
        (Report.generate_evaluation_report criticalIter sr sa exp cfg evalDate' gAt').experience_evaluation ∧
      (Report.generate_evaluation_report criticalIter sr sa exp cfg evalDate gAt).structure_evaluation =
        (Report.generate_evaluation_report criticalIter sr sa exp cfg evalDate' gAt').structure_evaluation ∧
      (Report.generate_evaluation_report criticalIter sr sa exp cfg evalDate gAt).next_steps =
        (Report.generate_evaluation_report criticalIter sr sa exp cfg evalDate' gAt').next_steps ∧
      (evalDate = evalDate' →
        (Report.generate_evaluation_report criticalIter sr sa exp cfg evalDate gAt).evaluation_criteria =
          (Report.generate_evaluation_report criticalIter sr sa exp cfg evalDate' gAt').evaluation_criteria)) :=
  ⟨⟨rfl, rfl, rfl, rfl, rfl, rfl, rfl, rfl⟩, ⟨rfl, rfl, rfl, rfl⟩,
   ⟨rfl, rfl, rfl, rfl, rfl, rfl, rfl, rfl, rfl, rfl,
    fun h => by rw [h]; rfl⟩⟩

/-- C4 counterexample: with only experience and skills populated,
`_compute_structure_score` reports `missing_sections =
["summary", "education"]` only — the absent optional sections projects and
certifications are never listed, contrary to the claim's
`[summary, education, projects, certifications]`. -/
theorem missing_sections_exclude_optional :
    (Scoring.compute_structure_score c4sections).2 = ["summary", "education"] ∧
    (Scoring.compute_structure_score c4sections).2 ≠
      ["summary", "education", "projects", "certifications"] := by
  constructor <;> decide

/-- C4 amended: for a SectionMap with only experience and skills non-empty,
`structure_score` is 80 plus the per-section content-length bonus, and
`missing_sections` is `["summary", "education"]` — the important sections
minus those present; absent optional sections are not reported. -/
theorem structure_score_two_essential (s : Scoring.ResumeStructuredSections)
    (hexp : Scoring.sectionFilled s.experience = true)
    (hsk : Scoring.sectionFilled s.skills = true)
    (hsum : Scoring.sectionFilled s.summary = false)
    (hedu : Scoring.sectionFilled s.education = false)
    (hproj : Scoring.sectionFilled s.projects = false)
    (hcert : Scoring.sectionFilled s.certifications = false) :
    Scoring.compute_structure_score s =
      (80 + (Scoring.lengthBonus s.experience + Scoring.lengthBonus s.skills +
        Scoring.lengthBonus s.summary + Scoring.lengthBonus s.education +
        Scoring.lengthBonus s.projects + Scoring.lengthBonus s.certifications),
       ["summary", "education"]) := by
  have h₁ := lengthBonus_le_two s.experience
  have h₂ := lengthBonus_le_two s.skills
  have h₃ := lengthBonus_le_two s.summary
  have h₄ := lengthBonus_le_two s.education
  have h₅ := lengthBonus_le_two s.projects
  have h₆ := lengthBonus_le_two s.certifications
  rw [Scoring.compute_structure_score]
  simp only [hexp, hsk, hsum, hedu, hproj, hcert, Bool.false_eq_true,
    if_true, if_false, ite_true, ite_false, Prod.mk.injEq]
  constructor
  · rw [min_eq_left (by linarith)]
    ring
  · rfl

/-- C4 witness: the amended statement evaluated at the concrete two-section
record. -/
theorem structure_score_two_essential_witness :
    Scoring.compute_structure_score c4sections =
      (80 + (Scoring.lengthBonus c4sections.experience +
        Scoring.lengthBonus c4sections.skills +
        Scoring.lengthBonus c4sections.summary +
        Scoring.lengthBonus c4sections.education +
        Scoring.lengthBonus c4sections.projects +
        Scoring.lengthBonus c4sections.certifications),
       ["summary", "education"]) :=
  structure_score_two_essential c4sections (by decide) (by decide) (by decide)
    (by decide) (by decide) (by decide)

/-- C5: the first substitution of `_normalize_text`, `re.sub(r'\s+', ' ')`,
replaces every whitespace run — single newlines included — by one space, so
no newline at all survives normalization (the 3-to-2 newline-collapsing
substitution the comment announces is dead code and the heading scan always
receives a single line); in particular `"A\n\n\nB"` normalizes to `"A B"`,
not to the `"A\n\nB"` the spec describes. -/
theorem normalize_text_strips_all_newlines :
    (∀ s : String, '\n' ∉ (Parsing.normalize_text s).data) ∧
    Parsing.normalize_text "A\n\n\nB" = "A B" ∧
    Parsing.normalize_text "A\n\n\nB" ≠ "A\n\nB" := by
  refine ⟨?_, by decide, by decide⟩
  intro s
  rw [Parsing.normalize_text]
  split_ifs with h
  · simp
  · have h₁ : '\n' ∉ Parsing.collapseWs s.data := collapseWsAux_no_nl s.data false
    rw [runSub_no_nl_id Parsing.collapseNlRun collapseNlRun_no_nl_id _ h₁,
      runSub_no_nl_id Parsing.tightenNlRun tightenNlRun_no_nl_id _ h₁]
    exact fun hm => h₁ (mem_of_mem_pyStripList _ _ hm)

/-- C6 counterexample: with "John Doe" before the first recognized heading
and non-heading content under it, `_detect_and_extract_sections` drops the
pre-heading line entirely — it appears in no section and `"other"` stays
empty, contrary to the claimed append-to-"other" behavior. -/
theorem preheading_content_dropped :
    Parsing.detect_and_extract_sections
        "John Doe\nEXPERIENCE\nbuilt large scale distributed systems daily" =
      [("summary", ""), ("skills", ""),
       ("experience", "built large scale distributed systems daily"),
       ("education", ""), ("projects", ""), ("certifications", ""),
       ("other", "")] ∧
    (Parsing.detect_and_extract_sections
        "John Doe\nEXPERIENCE\nbuilt large scale distributed systems daily").all
      (fun p => ! Parsing.strContains "John Doe".data p.2.data) = true := by
  constructor <;> decide

/-- C6 amended: the extraction loop never appends anything to `"other"`
(recognized boundaries always carry one of the six section keys, so the
append-to-"other" branch is dead code, and content before the first
recognized heading is simply dropped); `"other"` is either empty or — when
no section received content — the entire input text. -/
theorem other_is_empty_or_whole_text (text : String) :
    Parsing.getSection "other" (Parsing.detect_and_extract_sections text) = "" ∨
    Parsing.getSection "other" (Parsing.detect_and_extract_sections text) = text := by
  rw [Parsing.detect_and_extract_sections]
  split_ifs with h₀
  · left; rfl
  · simp only []
    have hoth : Parsing.getSection "other"
        (Parsing.extractLoop (Parsing.splitLines text)
          (Parsing.find_section_boundaries (Parsing.splitLines text))
          Parsing.initialSections) = "" :=
      extractLoop_other_empty _ _ _
        (fun b hb => find_section_boundaries_mem _ b hb) rfl rfl
    have hkeys : (Parsing.extractLoop (Parsing.splitLines text)
        (Parsing.find_section_boundaries (Parsing.splitLines text))
        Parsing.initialSections).map Prod.fst =
        ["summary", "skills", "experience", "education", "projects",
         "certifications", "other"] :=
      extractLoop_keys _ _ _
    split_ifs with hall
    · right
      exact getSection_setSection_self "other" text _ (by rw [hkeys]; decide)
    · left
      exact hoth

/-- C7: for every input (the empty string included) the segmenter returns
an association list over exactly the 7 canonical keys in order, and the
full `split_resume_into_sections` on empty input yields the all-empty
SectionMap without raising. -/
theorem segmenter_always_seven_keys (text : String) (t₀ t₁ : ℚ) :
    (Parsing.detect_and_extract_sections text).map Prod.fst =
      ["summary", "skills", "experience", "education", "projects",
       "certifications", "other"] ∧
    Parsing.detect_and_extract_sections "" = Parsing.initialSections ∧
    (Parsing.split_resume_into_sections "" t₀ t₁).summary = "" ∧
    (Parsing.split_resume_into_sections "" t₀ t₁).skills = "" ∧
    (Parsing.split_resume_into_sections "" t₀ t₁).experience = "" ∧
    (Parsing.split_resume_into_sections "" t₀ t₁).education = "" ∧
    (Parsing.split_resume_into_sections "" t₀ t₁).projects = "" ∧
    (Parsing.split_resume_into_sections "" t₀ t₁).certifications = "" ∧
    (Parsing.split_resume_into_sections "" t₀ t₁).other = "" := by
  refine ⟨?_, rfl, rfl, rfl, rfl, rfl, rfl, rfl, rfl⟩
  rw [Parsing.detect_and_extract_sections]
  split_ifs with h₀
  · rfl
  · simp only []
    split_ifs with hall
    · rw [setSection_keys, extractLoop_keys]; rfl
    · rw [extractLoop_keys]; rfl

/-- C8 counterexample: `validate_weights` never checks non-negativity, so
the configuration `{-0.5, 1.5, 0, 0}` (sum 1.0) passes validation, is not
replaced by the defaults, and changes the computed overall score. -/
theorem negative_weights_accepted :
    Scoring.validate_weights ⟨-1/2, 3/2, 0, 0⟩ = true ∧
    Scoring.effectiveWeights (some ⟨-1/2, 3/2, 0, 0⟩) = ⟨-1/2, 3/2, 0, 0⟩ ∧
    (⟨-1/2, 3/2, 0, 0⟩ : Scoring.ScoringWeights) ≠ Scoring.defaultWeights ∧
    (Scoring.ScoringWeights.mk (-1/2) (3/2) 0 0).skills_weight < 0 ∧
    Scoring.overall_score 100 0 0 0
      (Scoring.effectiveWeights (some ⟨-1/2, 3/2, 0, 0⟩)) = 0 ∧
    Scoring.overall_score 100 0 0 0 Scoring.defaultWeights = 35 := by
  have hval : Scoring.validate_weights ⟨-1/2, 3/2, 0, 0⟩ = true := by
    simp [Scoring.validate_weights, Scoring.ScoringWeights.total]
    norm_num
  have heff : Scoring.effectiveWeights (some ⟨-1/2, 3/2, 0, 0⟩) =
      (⟨-1/2, 3/2, 0, 0⟩ : Scoring.ScoringWeights) := by
    simp [Scoring.effectiveWeights, hval]
  refine ⟨hval, heff, ?_, by norm_num, ?_, ?_⟩
  · simp [Scoring.defaultWeights, Scoring.ScoringWeights.mk.injEq]
    norm_num
  · rw [heff]
    norm_num [Scoring.overall_score, min_def, max_def]
  · norm_num [Scoring.overall_score, Scoring.defaultWeights, min_def, max_def]

/-- C8 amended: a supplied configuration is accepted exactly when the four
weights sum to 1.0 within a strict 0.001 tolerance — non-negativity is not
checked; a configuration failing the sum check (such as the spec's
`{0.5, 0.5, 0.5, 0.5}`) is silently replaced by the defaults
`{0.35, 0.40, 0.15, 0.10}`, and an absent configuration gets the
defaults. -/
theorem weight_validation_checks_only_sum (w : Scoring.ScoringWeights) :
    (Scoring.validate_weights w = true ↔ |w.total - 1| < 1/1000) ∧
    Scoring.effectiveWeights (some w) =
      (if Scoring.validate_weights w then w else Scoring.defaultWeights) ∧
    Scoring.effectiveWeights none = Scoring.defaultWeights ∧
    Scoring.validate_weights ⟨1/2, 1/2, 1/2, 1/2⟩ = false ∧
    Scoring.effectiveWeights (some ⟨1/2, 1/2, 1/2, 1/2⟩) = Scoring.defaultWeights := by
  have hinv : Scoring.validate_weights ⟨1/2, 1/2, 1/2, 1/2⟩ = false := by
    simp [Scoring.validate_weights, Scoring.ScoringWeights.total]
    norm_num
  refine ⟨?_, rfl, rfl, hinv, ?_⟩
  · simp [Scoring.validate_weights]
  · show Scoring.effectiveWeights (some ⟨1/2, 1/2, 1/2, 1/2⟩) = Scoring.defaultWeights
    have hred : Scoring.effectiveWeights (some ⟨1/2, 1/2, 1/2, 1/2⟩) =
        if Scoring.validate_weights ⟨1/2, 1/2, 1/2, 1/2⟩ then
          (⟨1/2, 1/2, 1/2, 1/2⟩ : Scoring.ScoringWeights)
        else Scoring.defaultWeights := rfl
    rw [hred, hinv]
    rfl
